import Mathlib

/-!
Verification development for the PMI (Player Metric Index) computation
engine of this repository: the z-score normalization layer, the league
statistics aggregator, the position mapper and the position-interpolated
coefficient tables of the three engine generations (v1 = pmi_engine.py,
v2 = pmi_v2_engine.py, v3 = pmi_v3_engine.py), the era deflator of the
v3 engine, the defensive stat imputer (defensive_imputer.py), career
aggregation and the DPMI/ML-imputation pipeline of the v1 engine.

Embedding conventions, used consistently below:
- Python floats are modelled as exact rationals.  Where a value can be
  Python None, NaN, or a number and the source distinguishes the three
  (the z-score normalizers, the DPMI sentinel), the value is modelled by
  the three-valued `PyFloat`; NaN that slips past an `is None` test into
  `max(c_lo, min(c_hi, expr))` is embedded by its exact CPython outcome:
  `min(c, nan)` keeps `c` (since `nan < c` is False), so the clamp of a
  NaN expression is the upper clamp bound.  Where the source consults a
  value only through `get(key, default)` followed by arithmetic that a
  None or NaN would break or that the embedded claims never reach, the
  value is an `Option Rat` with `none` for the missing value, and NaN in
  those fields is outside the embedding domain (noted per definition).
  Fields of a row dictionary coming from `DataFrame.iterrows`/`to_dict`
  always carry every column, so an absent key is outside the domain.
- `round(x, n)` in Python rounds half to even; it is embedded exactly as
  `roundQ x n` below, on rationals.
- `numpy.sqrt` and the standard deviations computed by pandas are real
  valued and are embedded through `Real.sqrt` of the rational variance.
- Fitting code from scikit-learn (Ridge, StandardScaler) is an external
  library, not repository code: the fitted parameters are supplied as
  explicit arguments (oracle functions) to the embedded `train`, while
  everything deterministic around them (filters, quantile caps, the
  transform and predict formulas, clamping, rounding) is embedded from
  the source.
-/

/-- Round half to even at integer precision, the semantics of the Python
built-in `round` for a one-argument call (on rationals). -/
def rheQ (q : ℚ) : ℤ :=
  let f := ⌊q⌋
  let r := q - f
  if r < 1/2 then f
  else if 1/2 < r then f + 1
  else if 2 ∣ f then f else f + 1

/-- Python `round(q, d)` on rationals: round half to even at `d` decimal
digits. -/
def roundQ (q : ℚ) (d : ℕ) : ℚ :=
  (rheQ (q * 10 ^ d) : ℚ) / 10 ^ d

/-- Round half to even on the reals (for values reached through real
square roots, e.g. the career aggregation of the v1 engine). -/
noncomputable def rheR (x : ℝ) : ℤ :=
  let f := ⌊x⌋
  let r := x - f
  if r < 1/2 then f
  else if 1/2 < r then f + 1
  else if 2 ∣ f then f else f + 1

/-- Python `round(x, 4)` on reals. -/
noncomputable def roundR4 (x : ℝ) : ℝ :=
  (rheR (x * 10 ^ 4) : ℝ) / 10 ^ 4

/-- A Python float argument as the normalizers can receive it: the
value None, the float NaN, or a real number (an exact rational). -/
inductive PyFloat where
  | none
  | nan
  | num (q : ℚ)
deriving DecidableEq

/-- Python `x < c` for a float `x` that may be NaN: every comparison
with NaN is False. -/
def pyLtB (x : PyFloat) (c : ℚ) : Bool :=
  match x with
  | PyFloat.num s => decide (s < c)
  | _ => false

/-- A float-or-NaN argument (`Option` with `none` the float NaN) viewed
as a `PyFloat`; used for the std argument of the v1 and v2 normalizers,
whose domain excludes None (a None std would raise a TypeError at the
division). -/
def nanOpt (o : Option ℚ) : PyFloat :=
  match o with
  | some s => PyFloat.num s
  | none => PyFloat.nan

/-- CPython `max(-c, min(c, (val - mean) / std))` on floats: when all
three operands are numbers this is the ordinary clamp; when any operand
is NaN the quotient is NaN, `min(c, nan)` keeps `c` because `nan < c`
is False, and `max(-c, c)` is `c`, so the overall result is the upper
bound `c`.  (The None arms are unreachable from the call sites below,
which test for None first.) -/
def pyClampDiv (c : ℚ) : PyFloat → PyFloat → PyFloat → ℚ
  | PyFloat.num v, PyFloat.num m, PyFloat.num s => max (-c) (min c ((v - m) / s))
  | _, _, _ => c

/-- The v1 normalizer `_z` of `pmi_engine.py` (lines 114-118): 0
whenever `std == 0` (False for NaN) or `val` or `mean` is None or NaN
(`pd.isna` catches both); otherwise `max(-3.0, min(3.0, (val-mean)/std))`.
A NaN std slips past the test and the NaN quotient clamps to the upper
bound 3.0.  (A None std would raise a TypeError in the source and is
outside the embedding domain, hence the `Option` type: `none` is the
float NaN.) -/
def zScoreV1 (val mean : PyFloat) (std : Option ℚ) : ℚ :=
  if std = some 0 ∨ val = PyFloat.none ∨ val = PyFloat.nan
      ∨ mean = PyFloat.none ∨ mean = PyFloat.nan then 0
  else pyClampDiv 3 val mean (nanOpt std)

/-- The v2 normalizer `_z` of `pmi_v2_engine.py` (lines 163-173): 0
whenever `std == 0`, `val` or `mean` is None, or `val` is NaN; a NaN
`mean` is NOT caught (the isnan test covers only `val`), so the clamp
of the NaN quotient returns the upper bound 3.5, and likewise for a NaN
std (`none` in the `Option` argument; a None std would raise and is
outside the domain). -/
def zScoreV2 (val mean : PyFloat) (std : Option ℚ) : ℚ :=
  if std = some 0 ∨ val = PyFloat.none ∨ mean = PyFloat.none then 0
  else if val = PyFloat.nan then 0
  else pyClampDiv (7/2) val mean (nanOpt std)

/-- The v3 normalizer `_z` of `pmi_v3_engine.py` (lines 328-340): 0
whenever `std` is None or `== 0`, `val` or `mean` is None or NaN, or
`std < 0.001`; a NaN std fails the `s < 0.001` comparison (NaN
comparisons are False) and falls through to the clamp, which returns
the upper bound 3.5. -/
def zScoreV3 (val mean std : PyFloat) : ℚ :=
  if std = PyFloat.none ∨ std = PyFloat.num 0 ∨ val = PyFloat.none
      ∨ mean = PyFloat.none then 0
  else if val = PyFloat.nan ∨ mean = PyFloat.nan ∨ pyLtB std (1/1000) = true then 0
  else pyClampDiv (7/2) val mean std

/-- Drop the missing (NaN) entries of a statistic column, the
`df[col].dropna()` step of `compute_season_league_stats`. -/
def dropnaQ (xs : List (Option ℚ)) : List ℚ :=
  xs.filterMap id

/-- Arithmetic mean of a list of rationals (`Series.mean`). -/
def listMean (xs : List ℚ) : ℚ :=
  xs.sum / xs.length

/-- Sample variance with one delta degree of freedom, the square of the
pandas default `Series.std()` (`ddof = 1`). -/
def sampleVar (xs : List ℚ) : ℚ :=
  (xs.map (fun x => (x - listMean xs) ^ 2)).sum / ((xs.length : ℚ) - 1)

/-- The mean stored for one statistic column by the v1
`compute_season_league_stats` (`pmi_engine.py` lines 437-440):
`vals.mean() if len(vals) > 0 else 0`. -/
def meanStoredV1 (col : List (Option ℚ)) : ℚ :=
  let vals := dropnaQ col
  if 0 < vals.length then listMean vals else 0

/-- The standard deviation stored for one statistic column by the v1
`compute_season_league_stats` (`pmi_engine.py` lines 437-440):
`vals.std() if len(vals) > 1 else 1`, with no lower floor. -/
noncomputable def stdStoredV1 (col : List (Option ℚ)) : ℝ :=
  let vals := dropnaQ col
  if 1 < vals.length then Real.sqrt ((sampleVar vals : ℚ) : ℝ) else 1

/-- The standard deviation stored for one statistic column by the v2
`compute_season_league_stats` (`pmi_v2_engine.py` lines 357-367):
`std() if len > 1 else 1.0`, then replaced by `1.0` when below `0.001`. -/
noncomputable def stdStoredV2 (col : List (Option ℚ)) : ℝ :=
  let vals := dropnaQ col
  if 0 < vals.length then
    let s : ℝ := if 1 < vals.length then Real.sqrt ((sampleVar vals : ℚ) : ℝ) else 1
    if s < 1/1000 then 1 else s
  else 1

/-- The standard deviation stored for one statistic column by the v3
`compute_season_league_stats` (`pmi_v3_engine.py` lines 769-776):
`max(0.001, std())` when more than one value is present, else `1.0`. -/
noncomputable def stdStoredV3 (col : List (Option ℚ)) : ℝ :=
  let vals := dropnaQ col
  if 0 < vals.length then
    if 1 < vals.length then max (1/1000) (Real.sqrt ((sampleVar vals : ℚ) : ℝ)) else 1
  else 1

/-- Python `str.strip()` on a character list (ASCII whitespace). -/
def trimChars (cs : List Char) : List Char :=
  ((cs.dropWhile Char.isWhitespace).reverse.dropWhile Char.isWhitespace).reverse

/-- The characters of a label before the first occurrence of `sep`:
Python `s.split(sep)[0]`. -/
def firstTok (sep : Char) (cs : List Char) : List Char :=
  cs.takeWhile (· ≠ sep)

/-- The key looked up by every `_pos_num` in the repository:
`str(pos_str).strip().upper().split("-")[0].split("/")[0]`.  Python
`str.upper()` is embedded through `Char.toUpper`, which agrees with it
on the ASCII labels that occur. -/
def normPosKey (s : String) : String :=
  String.mk (firstTok '/' (firstTok '-' ((trimChars s.data).map Char.toUpper)))

/-- `POS_MAP` of `pmi_engine.py` line 36. -/
def POS_MAP_V1 : List (String × ℚ) :=
  [("PG", 1), ("SG", 2), ("G", 3/2), ("SF", 3), ("PF", 4), ("F", 7/2),
   ("C", 5), ("FC", 9/2), ("GF", 5/2)]

/-- `POS_MAP` of `defensive_imputer.py` lines 79-83 (note the mixed-case
entries `Guard`, `Forward`, `Center`). -/
def POS_MAP_IMP : List (String × ℚ) :=
  [("PG", 1), ("SG", 2), ("G", 3/2), ("SF", 3), ("PF", 4), ("F", 7/2),
   ("C", 5), ("FC", 9/2), ("GF", 5/2), ("Guard", 3/2), ("Forward", 7/2),
   ("Center", 5)]

/-- `_pos_num` of `pmi_engine.py` lines 95-100.  `none` stands for a
None/NaN label; the empty string is falsy in Python and also defaults. -/
def posNumV1 (p : Option String) : ℚ :=
  match p with
  | none => 3
  | some s => if s = "" then 3 else ((POS_MAP_V1.lookup (normPosKey s)).getD 3)

/-- `_pos_num` of `defensive_imputer.py` lines 86-91 (identical logic,
larger map). -/
def posNumImputer (p : Option String) : ℚ :=
  match p with
  | none => 3
  | some s => if s = "" then 3 else ((POS_MAP_IMP.lookup (normPosKey s)).getD 3)

/-- `_pos_interp` of `pmi_engine.py` lines 103-105 (identical in v2 and
v3): interpolation fraction `t`, PG(1) = 0 to C(5) = 1. -/
def pos_interp (pos_num : ℚ) : ℚ :=
  max 0 (min 1 ((pos_num - 1) / 4))

/-- The statistic keys of the DPMI weight dictionaries of the v1 engine. -/
inductive DStat where
  | stl | blk | drb | pf
deriving DecidableEq

/-- `W_DPMI_GUARD` of `pmi_engine.py` line 51. -/
def W_DPMI_GUARD : DStat → ℚ
  | .stl => 0.70
  | .blk => 0.20
  | .drb => 0.35
  | .pf => -0.15

/-- `W_DPMI_CENTER` of `pmi_engine.py` line 52. -/
def W_DPMI_CENTER : DStat → ℚ
  | .stl => 0.30
  | .blk => 0.75
  | .drb => 0.50
  | .pf => -0.10

/-- `_interp_weights(W_DPMI_GUARD, W_DPMI_CENTER, t)` of `pmi_engine.py`
lines 108-111, specialised to the DPMI dictionaries (the two dicts share
their key set). -/
def interp_dpmi_weights (t : ℚ) (k : DStat) : ℚ :=
  (1 - t) * W_DPMI_GUARD k + t * W_DPMI_CENTER k

/-- The statistic keys of the box-score weight dictionaries of the v2
and v3 engines. -/
inductive BStat where
  | pts | ast | stl | blk | drb | orb | tov | pf
deriving DecidableEq

/-- `_RAW_WEIGHTS` of `pmi_v2_engine.py` lines 74-83. -/
def RAW_WEIGHTS_V2 : BStat → ℚ
  | .pts => 0.7008
  | .ast => 0.3846
  | .stl => 1.3571
  | .blk => 0.6475
  | .drb => 0.3444
  | .orb => 0.1398
  | .tov => -0.9347
  | .pf => -0.5153

/-- `_MAX_W = max(abs(v) for v in _RAW_WEIGHTS.values())` of
`pmi_v2_engine.py` line 86. -/
def MAX_W_V2 : ℚ :=
  ([RAW_WEIGHTS_V2 .pts, RAW_WEIGHTS_V2 .ast, RAW_WEIGHTS_V2 .stl,
    RAW_WEIGHTS_V2 .blk, RAW_WEIGHTS_V2 .drb, RAW_WEIGHTS_V2 .orb,
    RAW_WEIGHTS_V2 .tov, RAW_WEIGHTS_V2 .pf].map abs).foldl max 0

/-- `WEIGHTS` of `pmi_v2_engine.py` line 87: raw weights normalised so
the largest absolute weight is 1. -/
def WEIGHTS_V2 (k : BStat) : ℚ :=
  RAW_WEIGHTS_V2 k / MAX_W_V2

/-- `POS_ADJUSTMENTS` of `pmi_v2_engine.py` lines 103-111:
`(guard_mult, center_mult)` pairs; stats without an entry have no
position adjustment. -/
def POS_ADJ_V2 : BStat → Option (ℚ × ℚ)
  | .stl => some (1.10, 0.90)
  | .blk => some (0.85, 1.15)
  | .ast => some (1.08, 0.92)
  | .orb => some (0.90, 1.10)
  | .drb => some (0.95, 1.05)
  | _ => none

/-- `_get_pos_weight` of `pmi_v2_engine.py` lines 176-184. -/
def get_pos_weight_v2 (k : BStat) (pos_num : ℚ) : ℚ :=
  match POS_ADJ_V2 k with
  | none => WEIGHTS_V2 k
  | some (g, c) =>
      let t := pos_interp pos_num
      WEIGHTS_V2 k * ((1 - t) * g + t * c)

/-- `_BPM_WEIGHTS` of `pmi_v3_engine.py` lines 104-113. -/
def BPM_WEIGHTS_V3 : BStat → ℚ
  | .pts => 0.7008
  | .ast => 0.3846
  | .stl => 1.3571
  | .blk => 0.6475
  | .drb => 0.3444
  | .orb => 0.1398
  | .tov => -0.9347
  | .pf => -0.5153

/-- `_ADJUSTMENTS` of `pmi_v3_engine.py` lines 127-138 (stats without an
entry get factor 1). -/
def ADJUSTMENTS_V3 : BStat → ℚ
  | .stl => 0.55 / 1.3571
  | .blk => 0.26 / 0.6475
  | .drb => 0.17 / 0.3444
  | .orb => 0.21 / 0.1398
  | .tov => 0.60 / 0.9347
  | _ => 1

/-- `_ADJUSTED_WEIGHTS` of `pmi_v3_engine.py` lines 140-143. -/
def ADJUSTED_WEIGHTS_V3 (k : BStat) : ℚ :=
  BPM_WEIGHTS_V3 k * ADJUSTMENTS_V3 k

/-- `WEIGHTS` of `pmi_v3_engine.py` lines 148-149: adjusted weights
normalised to the absolute points weight and rounded to four decimals. -/
def WEIGHTS_V3 (k : BStat) : ℚ :=
  roundQ (ADJUSTED_WEIGHTS_V3 k / |ADJUSTED_WEIGHTS_V3 .pts|) 4

/-- `POS_ADJUSTMENTS` of `pmi_v3_engine.py` lines 295-301 (note the
blocks pair: the guard multiplier 1.30 exceeds the center 0.85). -/
def POS_ADJ_V3 : BStat → Option (ℚ × ℚ)
  | .stl => some (1.10, 0.90)
  | .blk => some (1.30, 0.85)
  | .ast => some (1.05, 0.95)
  | .orb => some (1.15, 0.90)
  | .drb => some (0.95, 1.05)
  | _ => none

/-- `_get_pos_weight` of `pmi_v3_engine.py` lines 317-325. -/
def get_pos_weight_v3 (k : BStat) (pos_num : ℚ) : ℚ :=
  match POS_ADJ_V3 k with
  | none => WEIGHTS_V3 k
  | some (g, c) =>
      let t := pos_interp pos_num
      WEIGHTS_V3 k * ((1 - t) * g + t * c)

/-- One bracket of `_ERA_LEAGUE_AVGS` in `pmi_v3_engine.py` lines
208-237; `none` is the Python `None` of the pre-tracking eras. -/
structure EraAvg where
  stl : Option ℚ
  blk : Option ℚ
  trb : ℚ
  ppg : ℚ
  apg : ℚ
deriving DecidableEq

/-- `_ERA_LEAGUE_AVGS` of `pmi_v3_engine.py` lines 208-237, keyed by era
start year (insertion order is already ascending). -/
def ERA_LEAGUE_AVGS : List (ℤ × EraAvg) :=
  [(1946, ⟨none, none, 8.0, 12.0, 2.5⟩),
   (1955, ⟨none, none, 9.5, 13.0, 2.8⟩),
   (1960, ⟨none, none, 10.0, 14.0, 3.0⟩),
   (1974, ⟨some 1.14, some 0.72, 5.5, 12.5, 3.0⟩),
   (1978, ⟨some 1.20, some 0.70, 5.3, 12.8, 3.2⟩),
   (1982, ⟨some 1.14, some 0.66, 5.0, 12.5, 3.0⟩),
   (1986, ⟨some 1.06, some 0.62, 4.8, 12.8, 3.2⟩),
   (1990, ⟨some 1.01, some 0.57, 4.5, 12.5, 3.0⟩),
   (1994, ⟨some 0.96, some 0.52, 4.3, 12.0, 2.8⟩),
   (1997, ⟨some 0.90, some 0.50, 4.2, 11.5, 2.5⟩),
   (2000, ⟨some 0.78, some 0.45, 4.2, 11.8, 2.6⟩),
   (2005, ⟨some 0.75, some 0.48, 4.2, 12.0, 2.8⟩),
   (2010, ⟨some 0.72, some 0.48, 4.2, 12.5, 2.8⟩),
   (2015, ⟨some 0.72, some 0.48, 4.2, 13.0, 3.0⟩),
   (2020, ⟨some 0.70, some 0.47, 4.3, 13.5, 3.2⟩),
   (2024, ⟨some 0.72, some 0.47, 4.3, 14.0, 3.4⟩)]

/-- `_REF_ERA` steals average (`pmi_v3_engine.py` lines 240-244). -/
def REF_ERA_STL : ℚ := 0.72

/-- `_REF_ERA` blocks average. -/
def REF_ERA_BLK : ℚ := 0.48

/-- `_REF_ERA` total rebounds average. -/
def REF_ERA_TRB : ℚ := 4.2

/-- The sorted era keys (`era_keys = sorted(_ERA_LEAGUE_AVGS.keys())`). -/
def eraKeys : List ℤ :=
  ERA_LEAGUE_AVGS.map Prod.fst

/-- The bracket selection loop of `_get_era_deflators`
(`pmi_v3_engine.py` lines 254-258): the latest era key that is at most
the season year, defaulting to the first key. -/
def eraYearFor (y : ℤ) : ℤ :=
  eraKeys.foldl (fun acc ey => if y ≥ ey then ey else acc) (eraKeys.headD 0)

/-- The era bracket consulted for a season year
(`era = _ERA_LEAGUE_AVGS[era_year]`; the default is unreachable since
the selected key is always present). -/
def eraAvgFor (y : ℤ) : EraAvg :=
  (ERA_LEAGUE_AVGS.lookup (eraYearFor y)).getD ⟨none, none, 4.2, 0, 0⟩

/-- The deflator triple returned by `_get_era_deflators`. -/
structure Deflators where
  stl : ℚ
  blk : ℚ
  trb : ℚ
deriving DecidableEq

/-- `_get_era_deflators` of `pmi_v3_engine.py` lines 247-279.  For
steals and blocks the reference average is always present, so the
`ref_avg is not None` test is vacuous; rebounds are deflated only when
the era average exceeds the reference by more than five percent. -/
def get_era_deflators (y : ℤ) : Deflators :=
  let era := eraAvgFor y
  let dstl := match era.stl with
    | some a => if a > 0 then min 1 (REF_ERA_STL / a) else 1
    | none => 1
  let dblk := match era.blk with
    | some a => if a > 0 then min 1 (REF_ERA_BLK / a) else 1
    | none => 1
  let dtrb := if era.trb > REF_ERA_TRB * 1.05 then min 1 (REF_ERA_TRB / era.trb) else 1
  ⟨dstl, dblk, dtrb⟩

/-- `DPMI_SCALE` of `pmi_engine.py` line 54. -/
def DPMI_SCALE : ℚ := 1.2

/-- `DPMI_DAMPENER_REG` of `pmi_engine.py` line 55. -/
def DPMI_DAMPENER_REG : ℚ := 0.85

/-- `DPMI_DAMPENER_PLAYOFF` of `pmi_engine.py` line 56. -/
def DPMI_DAMPENER_PLAYOFF : ℚ := 0.55

/-- The fields of a player-season row dictionary read by `compute_dpmi`
and `impute_dpmi_ml` of `pmi_engine.py`.  Rows come from
`DataFrame.iterrows().to_dict()`, so every column is present; the four
box-score fields are three-valued (None, NaN — the DataFrame missing
value — or a number) because `compute_dpmi` treats None and NaN
differently.  The imputer feature fields are consulted only through
`get(key, default)` and fed to the external model; NaN in them is
outside the embedding domain. -/
structure DRow where
  spg : PyFloat
  bpg : PyFloat
  drb_pg : PyFloat
  pf_pg : PyFloat
  trb_rate : Option ℚ
  pf_rate : Option ℚ
  team_win_pct : Option ℚ
  mpg : Option ℚ
  is_center : Option Bool
  era : Option ℚ

/-- The league statistics consulted by `compute_dpmi` (the
`league_stats` dict entries `spg_mean`, ..., `pf_pg_std`). -/
structure DLeague where
  spg_mean : ℚ
  spg_std : ℚ
  bpg_mean : ℚ
  bpg_std : ℚ
  drb_pg_mean : ℚ
  drb_pg_std : ℚ
  pf_pg_mean : ℚ
  pf_pg_std : ℚ

/-- Python `float(x) if x is not None else 0.0`: None becomes the
number 0, a NaN stays NaN, a number stays itself.  Coincidentally this
is also `x or 0` on a float-or-None (`None or 0` is 0, `0.0 or 0` is 0,
a nonzero number and NaN are truthy and kept), the expression used for
`drb` in `compute_dpmi`. -/
def pyFloatOrZero (x : PyFloat) : PyFloat :=
  match x with
  | PyFloat.none => PyFloat.num 0
  | y => y

/-- `compute_dpmi` of `pmi_engine.py` lines 211-258.  `spg_val` and
`bpg_val` are `float(x) if x is not None else 0.0`; `drb` is
`row.get("drb_pg", 0) or 0` (None is falsy, a number is itself, NaN is
truthy and kept).  The sentinel 0 is returned when all three compare
equal to 0, which a NaN never does — a row whose defensive statistics
are NaN skips the sentinel, its NaN values are then zeroed by the
`pd.isna` test inside `_z`, and the fouls term can still contribute. -/
def compute_dpmi (row : DRow) (lg : DLeague) (pos_num : ℚ) (is_playoff : Bool) : ℚ :=
  let spg_val := pyFloatOrZero row.spg
  let bpg_val := pyFloatOrZero row.bpg
  let drb := pyFloatOrZero row.drb_pg
  if spg_val = PyFloat.num 0 ∧ bpg_val = PyFloat.num 0 ∧ drb = PyFloat.num 0 then 0
  else
    let t := pos_interp pos_num
    let z_stl := zScoreV1 spg_val (PyFloat.num lg.spg_mean) (some lg.spg_std)
    let z_blk := zScoreV1 bpg_val (PyFloat.num lg.bpg_mean) (some lg.bpg_std)
    let z_drb := zScoreV1 row.drb_pg (PyFloat.num lg.drb_pg_mean) (some lg.drb_pg_std)
    let z_pf := zScoreV1 row.pf_pg (PyFloat.num lg.pf_pg_mean) (some lg.pf_pg_std)
    let raw := interp_dpmi_weights t .stl * z_stl + interp_dpmi_weights t .blk * z_blk
      + interp_dpmi_weights t .drb * z_drb + interp_dpmi_weights t .pf * z_pf
    let dampener := if is_playoff then DPMI_DAMPENER_PLAYOFF else DPMI_DAMPENER_REG
    roundQ (raw * DPMI_SCALE * dampener) 4

/-- The trained GradientBoosting model of `train_dpmi_imputer` is
scikit-learn code (external library); its `predict` is abstracted as a
function from the six-entry feature vector to a rational. -/
def MLModel : Type := List ℚ → ℚ

/-- `impute_dpmi_ml` of `pmi_engine.py` lines 307-338: model prediction
on the six universal features, the elite historical defender boost, the
playoff dampener ratio, clamped below at 0 and rounded to four
decimals. -/
def impute_dpmi_ml (row : DRow) (model : Option MLModel) (is_playoff : Bool) : ℚ :=
  match model with
  | none => 0
  | some f =>
      let feats : List ℚ :=
        [row.trb_rate.getD 0, row.pf_rate.getD 0, row.team_win_pct.getD 0.5,
         row.mpg.getD 30, if row.is_center.getD false then 1 else 0,
         row.era.getD 1960]
      let pred := f feats
      let trb_rate := row.trb_rate.getD 0
      let team_win := row.team_win_pct.getD 0.5
      let pred2 :=
        if trb_rate > 0.35 ∧ team_win > 0.500 then
          pred + min 1.8 ((trb_rate - 0.35) * 8.0 * (team_win - 0.500) * 3.0)
        else pred
      let ratio := if is_playoff then DPMI_DAMPENER_PLAYOFF / DPMI_DAMPENER_REG else 1
      roundQ (max 0 (pred2 * ratio)) 4

/-- The DPMI part of the per-row loop body of `compute_pmi_for_season`
(`pmi_engine.py` lines 480-484): the ML imputation branch replaces the
box-score DPMI exactly when it is 0, the season starts before 1973, and
a model was supplied. -/
def dpmiForSeasonRow (row : DRow) (lg : DLeague) (pos_num : ℚ) (is_playoff : Bool)
    (season_year : ℤ) (model : Option MLModel) : ℚ :=
  let dpmi := compute_dpmi row lg pos_num is_playoff
  if dpmi = 0 ∧ season_year < 1973 ∧ model.isSome then
    impute_dpmi_ml row model is_playoff
  else dpmi

/-- `GP_HALF_REG` of `pmi_engine.py` line 65. -/
def GP_HALF_REG : ℚ := 60

/-- `GP_HALF_PLAYOFF` of `pmi_engine.py` line 66. -/
def GP_HALF_PLAYOFF : ℚ := 12

/-- `sorted(season_pmis, reverse=True)` of `compute_career_pmi`
(`pmi_engine.py` line 391): a stable descending sort, embedded as
insertion sort by the greater-or-equal relation (all stable sorts of a
list agree). -/
def sortDesc (xs : List ℚ) : List ℚ :=
  xs.insertionSort (· ≥ ·)

/-- The peak-weighted sum of `compute_career_pmi` (`pmi_engine.py` lines
395-400): the element at distance `i` from the front of the descending
list is weighted by `sqrt(n - i)`, i.e. the head of a suffix of length
`k` is weighted `sqrt(k)`. -/
noncomputable def pwSum : List ℚ → ℝ
  | [] => 0
  | x :: rest => Real.sqrt ((rest.length : ℝ) + 1) * (x : ℝ) + pwSum rest

/-- The matching total weight `sum(sqrt(n - i))`. -/
noncomputable def pwWeight : List ℚ → ℝ
  | [] => 0
  | _ :: rest => Real.sqrt ((rest.length : ℝ) + 1) + pwWeight rest

/-- `compute_career_pmi` of `pmi_engine.py` lines 378-409: peak-weighted
average of the descending-sorted season scores, Bayesian shrinkage
toward the league mean with trust `gp / (gp + half)`, rounded to four
decimals; an empty season list returns 0. -/
noncomputable def compute_career_pmi (season_pmis : List ℚ) (total_gp : ℕ)
    (is_playoff : Bool) (league_mean : ℚ) : ℝ :=
  if season_pmis = [] then 0
  else
    let ys := sortDesc season_pmis
    let total_weight := pwWeight ys
    let weighted_sum := pwSum ys
    let career_avg := if total_weight > 0 then weighted_sum / total_weight else 0
    let gp_half : ℚ := if is_playoff then GP_HALF_PLAYOFF else GP_HALF_REG
    let trust : ℝ := (total_gp : ℝ) / ((total_gp : ℝ) + (gp_half : ℝ))
    roundR4 (trust * career_avg + (1 - trust) * (league_mean : ℝ))

/-- Digits of a Python-int literal: `some` of the value when the
character list is nonempty and all decimal digits. -/
def digitsVal (cs : List Char) : Option ℕ :=
  if cs ≠ [] ∧ cs.all Char.isDigit then
    some (cs.foldl (fun acc c => acc * 10 + (c.toNat - 48)) 0)
  else none

/-- Python `int(s)` on a string piece: optional sign after stripping
whitespace, else a `ValueError` (`none`). -/
def parseIntPy (cs : List Char) : Option ℤ :=
  match trimChars cs with
  | '-' :: ds => (digitsVal ds).map (fun n => -(n : ℤ))
  | '+' :: ds => (digitsVal ds).map (fun n => (n : ℤ))
  | ds => (digitsVal ds).map (fun n => (n : ℤ))

/-- Python `s.split(sep)` on character lists. -/
def splitOnChar (sep : Char) : List Char → List (List Char)
  | [] => [[]]
  | c :: rest =>
      let r := splitOnChar sep rest
      if c = sep then [] :: r
      else
        match r with
        | h :: t => (c :: h) :: t
        | [] => [[c]]

/-- `_height_to_inches` of `defensive_imputer.py` lines 94-105: a string
`feet-inches` becomes total inches, anything else (or a parse error)
becomes 0. -/
def heightToInches (s : String) : ℚ :=
  if s = "" then 0
  else
    let t := trimChars s.data
    if t.contains '-' then
      let parts := splitOnChar '-' t
      match parseIntPy (parts.getD 0 []), parseIntPy (parts.getD 1 []) with
      | some a, some b => ((a * 12 + b : ℤ) : ℚ)
      | _, _ => 0
    else 0

/-- The `pos_height` fallback table of `DefensiveStatImputer.predict`
(`defensive_imputer.py` line 273), consulted at `int(round(pos))` with
default 78. -/
def posHeight (n : ℤ) : ℚ :=
  if n = 1 then 74 else if n = 2 then 77 else if n = 3 then 79
  else if n = 4 then 81 else if n = 5 then 83 else 78

/-- Fitted `StandardScaler` parameters (scikit-learn): per-feature
center and scale of the transform `(x - mean) / scale`. -/
structure Scaler where
  mean : List ℚ
  scale : List ℚ
deriving DecidableEq

/-- A fitted Ridge regression: coefficients and intercept of the linear
predictor. -/
structure LinModel where
  coef : List ℚ
  intercept : ℚ
deriving DecidableEq

/-- `StandardScaler.transform` on one feature vector. -/
def scalerTransform (sc : Scaler) (x : List ℚ) : List ℚ :=
  (x.zip (sc.mean.zip sc.scale)).map (fun p => (p.1 - p.2.1) / p.2.2)

/-- `Ridge.predict` on one transformed feature vector. -/
def linPredict (m : LinModel) (x : List ℚ) : ℚ :=
  (x.zip m.coef).foldl (fun acc p => acc + p.1 * p.2) 0 + m.intercept

/-- The state of a `DefensiveStatImputer` instance
(`defensive_imputer.py` lines 117-126): models and scalers are `none`
until trained. -/
structure ImputerState where
  stl_model : Option LinModel
  blk_model : Option LinModel
  stl_scaler : Option Scaler
  blk_scaler : Option Scaler
  stl_cap : ℚ
  blk_cap : ℚ
  is_trained : Bool
deriving DecidableEq

/-- The freshly constructed imputer (`DefensiveStatImputer.__init__`). -/
def initImputer : ImputerState :=
  ⟨none, none, none, none, 3.5, 3.5, false⟩

/-- One row of the training frame after `_prepare_features` (all columns
present; `none` is NaN).  `feats` lists the 13 `TRAINING_FEATURES` in
order: pos_num, height_inches, trb_pg, pf_pg, apg, mpg, ppg, fga_pg,
league_fga_pg, team_win_pct, orb_pg, drb_pg, tov_pg. -/
structure TrainRow where
  season_year : Option ℚ
  gp : Option ℚ
  mpg : Option ℚ
  spg : Option ℚ
  bpg : Option ℚ
  feats : List (Option ℚ)
deriving DecidableEq

/-- Boolean filter `o ≥ c` with NaN comparing false, as in pandas. -/
def ogeB (o : Option ℚ) (c : ℚ) : Bool :=
  match o with
  | some v => decide (c ≤ v)
  | none => false

/-- Boolean filter `o > c` with NaN comparing false. -/
def ogtB (o : Option ℚ) (c : ℚ) : Bool :=
  match o with
  | some v => decide (c < v)
  | none => false

/-- `Series.median`: middle element of the ascending sort, or the mean
of the two middle elements. -/
def medianQ (xs : List ℚ) : ℚ :=
  let s := xs.insertionSort (· ≤ ·)
  let n := s.length
  if n % 2 = 1 then s.getD (n / 2) 0
  else (s.getD (n / 2 - 1) 0 + s.getD (n / 2) 0) / 2

/-- The position-conditioned height median used by the fill step of
`DefensiveStatImputer.train` (lines 194-199): the median of the
positive heights sharing the row position, defaulting to 78 when the
group is absent (a NaN position never matches a group key). -/
def posMedianOf (rows : List TrainRow) (p : Option ℚ) : ℚ :=
  match p with
  | none => 78
  | some pv =>
      let hs := rows.filterMap (fun r =>
        match r.feats.getD 1 none with
        | some h => if 0 < h ∧ r.feats.getD 0 none = some pv then some h else none
        | none => none)
      if hs = [] then 78 else medianQ hs

/-- The height fill step of `DefensiveStatImputer.train` (lines
194-199): rows whose height is exactly 0 receive the position median. -/
def hfill (rows : List TrainRow) : List TrainRow :=
  if rows.any (fun r => r.feats.getD 1 none = some 0) then
    rows.map (fun r =>
      if r.feats.getD 1 none = some 0 then
        ⟨r.season_year, r.gp, r.mpg, r.spg, r.bpg,
         r.feats.set 1 (some (posMedianOf rows (r.feats.getD 0 none)))⟩
      else r)
  else rows

/-- The row-qualification pipeline of `DefensiveStatImputer.train`
(lines 183-201) with the default floors `min_gp = 20`, `min_mpg = 15`:
modern seasons, participation floors, positive steals, non-negative
blocks, height fill, then `dropna` over the features and targets. -/
def qualifyRows (rows : List TrainRow) : List TrainRow :=
  let d1 := rows.filter (fun r => ogeB r.season_year 1974)
  let d2 := d1.filter (fun r => ogeB r.gp 20)
  let d3 := d2.filter (fun r => ogeB r.mpg 15)
  let d4 := d3.filter (fun r => ogtB r.spg 0)
  let d5 := d4.filter (fun r => ogeB r.bpg 0)
  let d6 := hfill d5
  d6.filter (fun r => r.feats.all Option.isSome && r.spg.isSome && r.bpg.isSome)

/-- The pandas `Series.quantile(0.95)` with linear interpolation:
`h = 0.95 * (n - 1)`, interpolate between the neighbouring order
statistics. -/
def quantile95 (xs : List ℚ) : ℚ :=
  let s := xs.insertionSort (· ≤ ·)
  let n := s.length
  let h : ℚ := 0.95 * ((n : ℚ) - 1)
  let i := (⌊h⌋).toNat
  let lo := s.getD i 0
  lo + (h - ⌊h⌋) * (s.getD (i + 1) lo - lo)

/-- The outcome of `DefensiveStatImputer.train`: the structured
insufficient-data result (the returned error dict), or the metrics dict
of a successful run (cross-validated scores live in the external
library and are omitted). -/
inductive TrainResult where
  | insufficient (n : ℕ)
  | trained (stl_cap blk_cap : ℚ) (n : ℕ)
deriving DecidableEq

/-- `DefensiveStatImputer.train` (lines 167-242).  `fitScaler` and
`fitRidge` stand for the scikit-learn fitting calls (external library);
everything else follows the source: the under-200 check fires before
any state is written, the caps are the 95th percentiles of the
qualifying targets, both scalers are fitted on the same matrix, and the
state becomes trained only on success. -/
def trainImputer (fitScaler : List (List ℚ) → Scaler)
    (fitRidge : List (List ℚ) → List ℚ → LinModel)
    (rows : List TrainRow) (st : ImputerState) : TrainResult × ImputerState :=
  let q := qualifyRows rows
  if q.length < 200 then (.insufficient q.length, st)
  else
    let stl_cap := quantile95 (q.map (fun r => r.spg.getD 0))
    let blk_cap := quantile95 (q.map (fun r => r.bpg.getD 0))
    let X := q.map (fun r => r.feats.map (fun o => o.getD 0))
    let y_stl := q.map (fun r => r.spg.getD 0)
    let y_blk := q.map (fun r => r.bpg.getD 0)
    let stl_scaler := fitScaler X
    let stl_model := fitRidge (X.map (scalerTransform stl_scaler)) y_stl
    let blk_scaler := fitScaler X
    let blk_model := fitRidge (X.map (scalerTransform blk_scaler)) y_blk
    (.trained stl_cap blk_cap q.length,
     ⟨some stl_model, some blk_model, some stl_scaler, some blk_scaler,
      stl_cap, blk_cap, true⟩)

/-- The fields of the `player_row` dict read by
`DefensiveStatImputer.predict` (lines 244-285). -/
structure PlayerRow where
  pos_num : Option ℚ
  height_inches : Option ℚ
  trb_pg : Option ℚ
  pf_pg : Option ℚ
  apg : Option ℚ
  mpg : Option ℚ
  ppg : Option ℚ
  fga_pg : Option ℚ
  league_fga_pg : Option ℚ
  team_win_pct : Option ℚ
  rpg : Option ℚ
  position : Option String
  height : Option String

/-- `row.get(feat, 0)` with None/NaN forced to 0 (predict lines
255-258). -/
def gv (o : Option ℚ) : ℚ := o.getD 0

/-- `DefensiveStatImputer.predict` (lines 244-285): `(0.0, 0.0)` while
untrained; otherwise the universal features with fallbacks for rebound
total, position and height, the `POST_73_FEATURES` forced to 0, the
scaler transform, the linear prediction clamped to `[0, cap]`, and a
final round to two decimals.  (The wildcard arm is unreachable for
states produced by `trainImputer`.) -/
def predictImputer (st : ImputerState) (row : PlayerRow) : ℚ × ℚ :=
  if st.is_trained = false then (0, 0)
  else
    let trb0 := gv row.trb_pg
    let trb1 := if trb0 = 0 then row.rpg.getD 0 else trb0
    let pos0 := gv row.pos_num
    let pos1 := if pos0 = 0 then posNumImputer row.position else pos0
    let hgt0 := gv row.height_inches
    let hgt1 :=
      if hgt0 = 0 then
        let hi := heightToInches (row.height.getD "")
        if hi = 0 then posHeight (rheQ pos1) else hi
      else hgt0
    let X : List ℚ :=
      [pos1, hgt1, trb1, gv row.pf_pg, gv row.apg, gv row.mpg, gv row.ppg,
       gv row.fga_pg, gv row.league_fga_pg, gv row.team_win_pct, 0, 0, 0]
    match st.stl_scaler, st.stl_model, st.blk_scaler, st.blk_model with
    | some ss, some sm, some bs, some bm =>
        let stl_pred := max 0 (min st.stl_cap (linPredict sm (scalerTransform ss X)))
        let blk_pred := max 0 (min st.blk_cap (linPredict bm (scalerTransform bs X)))
        (roundQ stl_pred 2, roundQ blk_pred 2)
    | _, _, _, _ => (0, 0)

/-- A qualifying modern-era training row used by the concrete scenarios
below: 2000 season, 82 games, 30 minutes, 0.006 steals and blocks per
game, all 13 features present (height 78). -/
def sampleTrainRow : TrainRow :=
  ⟨some 2000, some 82, some 30, some 0.006, some 0.006,
   [some 3, some 78, some 5, some 2, some 2, some 30, some 10, some 8,
    some 14, some 0.5, some 1, some 3, some 1]⟩

/-- A 50-row corpus: fewer than 200 qualifying rows. -/
def rows50 : List TrainRow := List.replicate 50 sampleTrainRow

/-- A 250-row corpus of identical qualifying rows. -/
def rows250 : List TrainRow := List.replicate 250 sampleTrainRow

/-- What `StandardScaler.fit` returns on a zero-variance design matrix
(every row identical): the per-feature mean is the common row and every
scale is 1 (scikit-learn replaces a zero standard deviation by 1).
Used as the fitting oracle for the constant corpus `rows250`, where it
coincides with the real library. -/
def constFitScaler (X : List (List ℚ)) : Scaler :=
  ⟨X.headD (List.replicate 13 0), List.replicate 13 1⟩

/-- What `Ridge.fit` returns when the scaled design matrix is all zeros
(constant features): zero coefficients and intercept equal to the mean
target.  Used as the fitting oracle for the constant corpus `rows250`,
where it coincides with the real library. -/
def constFitRidge (X : List (List ℚ)) (y : List ℚ) : LinModel :=
  ⟨List.replicate 13 0, listMean y⟩

/-- The imputer state after training on the constant 250-row corpus. -/
def trainedOnRows250 : ImputerState :=
  (trainImputer constFitScaler constFitRidge rows250 initImputer).2

/-- A legacy prediction row whose universal features match the training
rows. -/
def samplePlayerRow : PlayerRow :=
  ⟨some 3, some 78, some 5, some 2, some 2, some 30, some 10, some 8,
   some 14, some 0.5, none, none, none⟩

theorem rheQ_le (q : ℚ) : (rheQ q : ℚ) ≤ q + 1/2 := by
  simp only [rheQ]
  have h1 : (⌊q⌋ : ℚ) ≤ q := Int.floor_le q
  have h2 : q - 1 < (⌊q⌋ : ℚ) := Int.sub_one_lt_floor q
  split_ifs <;> push_cast <;> linarith

theorem le_rheQ (q : ℚ) : q - 1/2 ≤ (rheQ q : ℚ) := by
  simp only [rheQ]
  have h1 : (⌊q⌋ : ℚ) ≤ q := Int.floor_le q
  have h2 : q - 1 < (⌊q⌋ : ℚ) := Int.sub_one_lt_floor q
  split_ifs <;> push_cast <;> linarith

theorem rheQ_nonneg (q : ℚ) (h : 0 ≤ q) : 0 ≤ rheQ q := by
  have hf : 0 ≤ ⌊q⌋ := Int.floor_nonneg.mpr h
  simp only [rheQ]
  split_ifs <;> omega

theorem roundQ2_nonneg (x : ℚ) (h : 0 ≤ x) : 0 ≤ roundQ x 2 := by
  unfold roundQ
  have := rheQ_nonneg (x * 10 ^ 2) (by positivity)
  positivity

theorem roundQ2_le (x c : ℚ) (h : x ≤ c) : roundQ x 2 ≤ c + 1/200 := by
  unfold roundQ
  have hb := rheQ_le (x * 10 ^ 2)
  rw [div_le_iff (by norm_num : (0:ℚ) < 10 ^ 2)]
  nlinarith

theorem floor_le_rheR (x : ℝ) : ⌊x⌋ ≤ rheR x := by
  simp only [rheR]
  split_ifs <;> omega

theorem rheR_le_floor_add_one (x : ℝ) : rheR x ≤ ⌊x⌋ + 1 := by
  simp only [rheR]
  split_ifs <;> omega

theorem rheR_mono (x y : ℝ) (h : x ≤ y) : rheR x ≤ rheR y := by
  rcases lt_or_le ⌊x⌋ ⌊y⌋ with hf | hf
  · calc rheR x ≤ ⌊x⌋ + 1 := rheR_le_floor_add_one x
    _ ≤ ⌊y⌋ := by omega
    _ ≤ rheR y := floor_le_rheR y
  · have hfe : ⌊x⌋ = ⌊y⌋ := le_antisymm (Int.floor_le_floor h) hf
    have hr : x - (⌊x⌋ : ℝ) ≤ y - (⌊y⌋ : ℝ) := by
      rw [← hfe]; linarith
    simp only [rheR]
    rw [hfe]
    split_ifs <;> first | omega | linarith [hr]

theorem roundR4_mono (x y : ℝ) (h : x ≤ y) : roundR4 x ≤ roundR4 y := by
  unfold roundR4
  have := rheR_mono (x * 10 ^ 4) (y * 10 ^ 4) (by nlinarith)
  have hc : ((rheR (x * 10 ^ 4) : ℤ) : ℝ) ≤ ((rheR (y * 10 ^ 4) : ℤ) : ℝ) := by
    exact_mod_cast this
  have hp : (0:ℝ) ≤ 10 ^ 4 := by norm_num
  exact div_le_div_of_nonneg_right hc hp

/-- Clamp lower bound helper. -/
theorem neg_le_clamp (c x : ℚ) : -c ≤ max (-c) (min c x) :=
  le_max_left _ _

/-- Clamp upper bound helper. -/
theorem clamp_le (c x : ℚ) (h : 0 ≤ c) : max (-c) (min c x) ≤ c :=
  max_le (by linarith) (min_le_left _ _)

/-- C1 counterexample: the claim says the normalizer returns
`clamp((value-mean)/std, -C, +C)` for every input with nonzero std and
present value and mean, but the v3 normalizer returns 0 (not the clamp
value 3.5) at value 1, mean 0, std 0.0005, because it also zeroes out
any std below 0.001. -/
theorem zScoreV3_small_std_breaks_clamp :
    zScoreV3 (PyFloat.num 1) (PyFloat.num 0) (PyFloat.num (1/2000)) ≠
      max (-(7/2)) (min (7/2) ((1 - 0) / ((1:ℚ)/2000))) := by
  have h1 : zScoreV3 (PyFloat.num 1) (PyFloat.num 0) (PyFloat.num (1/2000)) = 0 := by
    simp only [zScoreV3, pyLtB]
    norm_num
  have h2 : max (-(7/2)) (min (7/2) ((1 - 0) / ((1:ℚ)/2000))) = 7/2 := by
    rw [show ((1:ℚ) - 0) / (1/2000) = 2000 by norm_num]
    rw [min_eq_left (by norm_num), max_eq_right (by norm_num)]
  rw [h1, h2]
  norm_num

theorem pyClampDiv_bounds (c : ℚ) (hc : 0 ≤ c) (a b d : PyFloat) :
    -c ≤ pyClampDiv c a b d ∧ pyClampDiv c a b d ≤ c := by
  cases a <;> cases b <;> cases d <;> simp only [pyClampDiv]
  case num.num.num => exact ⟨neg_le_clamp _ _, clamp_le _ _ hc⟩
  all_goals exact ⟨by linarith, le_refl c⟩

theorem zScoreV1_bounds (ov om : PyFloat) (qs : Option ℚ) :
    -3 ≤ zScoreV1 ov om qs ∧ zScoreV1 ov om qs ≤ 3 := by
  simp only [zScoreV1]
  by_cases h : qs = some 0 ∨ ov = PyFloat.none ∨ ov = PyFloat.nan
      ∨ om = PyFloat.none ∨ om = PyFloat.nan
  · rw [if_pos h]
    norm_num
  · rw [if_neg h]
    exact pyClampDiv_bounds 3 (by norm_num) _ _ _

theorem zScoreV2_bounds (ov om : PyFloat) (qs : Option ℚ) :
    -(7/2) ≤ zScoreV2 ov om qs ∧ zScoreV2 ov om qs ≤ 7/2 := by
  simp only [zScoreV2]
  by_cases h1 : qs = some 0 ∨ ov = PyFloat.none ∨ om = PyFloat.none
  · rw [if_pos h1]
    norm_num
  · rw [if_neg h1]
    by_cases h2 : ov = PyFloat.nan
    · rw [if_pos h2]
      norm_num
    · rw [if_neg h2]
      exact pyClampDiv_bounds (7/2) (by norm_num) _ _ _

theorem zScoreV3_bounds (ov om os : PyFloat) :
    -(7/2) ≤ zScoreV3 ov om os ∧ zScoreV3 ov om os ≤ 7/2 := by
  simp only [zScoreV3]
  by_cases h1 : os = PyFloat.none ∨ os = PyFloat.num 0 ∨ ov = PyFloat.none
      ∨ om = PyFloat.none
  · rw [if_pos h1]
    norm_num
  · rw [if_neg h1]
    by_cases h2 : ov = PyFloat.nan ∨ om = PyFloat.nan ∨ pyLtB os (1/1000) = true
    · rw [if_pos h2]
      norm_num
    · rw [if_neg h2]
      exact pyClampDiv_bounds (7/2) (by norm_num) _ _ _

set_option maxHeartbeats 1000000 in
/-- C1 amended: for number-valued inputs each generation returns the
clamped standardized score, except that std = 0 (v1, v2) and any std
below 0.001 (v3) yield exactly 0.  A None or NaN value or mean yields
exactly 0 in v1 (pd.isna) and v3 (isnan after the None test), but in v2
only a None mean is caught: a NaN mean (with nonzero std) yields the
upper clamp bound 3.5, as does a NaN std in v2 and v3 (and a NaN std
yields 3.0 in v1).  In every generation and for every input the result
lies in `[-C, C]` (C = 3 for v1, C = 3.5 for v2 and v3). -/
theorem zScore_amended (v m s : ℚ) (ov om os : PyFloat) (qs : Option ℚ) :
    (zScoreV1 (PyFloat.num v) (PyFloat.num m) (some s) =
      if s = 0 then 0 else max (-3) (min 3 ((v - m) / s)))
    ∧ zScoreV1 PyFloat.none om qs = 0 ∧ zScoreV1 PyFloat.nan om qs = 0
    ∧ zScoreV1 ov PyFloat.none qs = 0 ∧ zScoreV1 ov PyFloat.nan qs = 0
    ∧ zScoreV1 (PyFloat.num v) (PyFloat.num m) none = 3
    ∧ -3 ≤ zScoreV1 ov om qs ∧ zScoreV1 ov om qs ≤ 3
    ∧ (zScoreV2 (PyFloat.num v) (PyFloat.num m) (some s) =
      if s = 0 then 0 else max (-(7/2)) (min (7/2) ((v - m) / s)))
    ∧ zScoreV2 PyFloat.none om qs = 0 ∧ zScoreV2 PyFloat.nan om qs = 0
    ∧ zScoreV2 ov PyFloat.none qs = 0
    ∧ (zScoreV2 (PyFloat.num v) PyFloat.nan (some s) =
      if s = 0 then 0 else 7/2)
    ∧ zScoreV2 (PyFloat.num v) (PyFloat.num m) none = 7/2
    ∧ -(7/2) ≤ zScoreV2 ov om qs ∧ zScoreV2 ov om qs ≤ 7/2
    ∧ (zScoreV3 (PyFloat.num v) (PyFloat.num m) (PyFloat.num s) =
      if s < 1/1000 then 0 else max (-(7/2)) (min (7/2) ((v - m) / s)))
    ∧ zScoreV3 ov om PyFloat.none = 0 ∧ zScoreV3 PyFloat.none om os = 0
    ∧ zScoreV3 PyFloat.nan om os = 0 ∧ zScoreV3 ov PyFloat.none os = 0
    ∧ zScoreV3 ov PyFloat.nan os = 0
    ∧ zScoreV3 (PyFloat.num v) (PyFloat.num m) PyFloat.nan = 7/2
    ∧ -(7/2) ≤ zScoreV3 ov om os ∧ zScoreV3 ov om os ≤ 7/2 := by
  refine ⟨?_, ?_, ?_, ?_, ?_, ?_, (zScoreV1_bounds ov om qs).1,
    (zScoreV1_bounds ov om qs).2, ?_, ?_, ?_, ?_, ?_, ?_,
    (zScoreV2_bounds ov om qs).1, (zScoreV2_bounds ov om qs).2, ?_, ?_, ?_, ?_,
    ?_, ?_, ?_, (zScoreV3_bounds ov om os).1, (zScoreV3_bounds ov om os).2⟩
  · by_cases hs : s = 0
    · subst hs
      simp [zScoreV1]
    · rw [if_neg hs]
      simp only [zScoreV1]
      rw [if_neg (by simp [hs])]
      simp [nanOpt, pyClampDiv]
  · simp [zScoreV1]
  · simp [zScoreV1]
  · cases ov <;> simp [zScoreV1]
  · cases ov <;> simp [zScoreV1]
  · simp [zScoreV1, nanOpt, pyClampDiv]
  · by_cases hs : s = 0
    · subst hs
      simp [zScoreV2]
    · rw [if_neg hs]
      simp only [zScoreV2]
      rw [if_neg (by simp [hs]), if_neg (by simp)]
      simp [nanOpt, pyClampDiv]
  · simp [zScoreV2]
  · simp [zScoreV2]
  · cases ov <;> simp [zScoreV2]
  · by_cases hs : s = 0
    · subst hs
      simp [zScoreV2]
    · rw [if_neg hs]
      simp only [zScoreV2]
      rw [if_neg (by simp [hs]), if_neg (by simp)]
      simp [nanOpt, pyClampDiv]
  · simp [zScoreV2, nanOpt, pyClampDiv]
  · by_cases hs : s < 1/1000
    · rw [if_pos hs]
      simp only [zScoreV3]
      by_cases hz : s = 0
      · rw [if_pos (by simp [hz])]
      · rw [if_neg (by simp [hz]),
          if_pos (Or.inr (Or.inr (by
            simp only [pyLtB, decide_eq_true_eq]
            exact hs)))]
    · rw [if_neg hs]
      simp only [zScoreV3]
      have hz : ¬ s = 0 := by
        intro h
        rw [h] at hs
        exact hs (by norm_num)
      rw [if_neg (by simp [hz]),
        if_neg (by
          simp only [pyLtB, decide_eq_true_eq]
          push_neg
          exact ⟨by simp, by simp, le_of_not_lt hs⟩)]
      simp [pyClampDiv]
  · cases ov <;> cases om <;> simp [zScoreV3]
  · simp [zScoreV3]
  · cases os <;> simp [zScoreV3, pyLtB, pyClampDiv]
  · cases ov <;> simp [zScoreV3]
  · cases ov <;> cases os <;> simp [zScoreV3, pyLtB, pyClampDiv]
  · simp [zScoreV3, pyLtB, pyClampDiv]

theorem sampleVar_c2 : sampleVar (dropnaQ [some 10, some 20, some 30]) = 100 := by
  rw [show dropnaQ [some 10, some 20, some 30] = [10, 20, 30] from rfl]
  norm_num [sampleVar, listMean]

theorem stdStoredV1_c2 : stdStoredV1 [some 10, some 20, some 30] = 10 := by
  simp only [stdStoredV1]
  rw [if_pos (show 1 < (dropnaQ [some 10, some 20, some 30]).length by decide)]
  rw [sampleVar_c2]
  rw [show (((100:ℚ)):ℝ) = 10 ^ 2 by norm_num]
  exact Real.sqrt_sq (by norm_num)

/-- C2 counterexample: for the season column {10, 20, 30} the v1
aggregator stores the pandas sample standard deviation 10 (ddof = 1),
not the population value 8.16 claimed by the spec, and the resulting
pre-clamp standardized score of the 30-point row is 1, not 1.22. -/
theorem league_stats_c2_counterexample :
    meanStoredV1 [some 10, some 20, some 30] = 20
    ∧ stdStoredV1 [some 10, some 20, some 30] = 10
    ∧ ¬ |stdStoredV1 [some 10, some 20, some 30] - 8.16| ≤ 1/2
    ∧ (30 - (meanStoredV1 [some 10, some 20, some 30] : ℝ)) /
        stdStoredV1 [some 10, some 20, some 30] = 1
    ∧ ¬ |(30 - (meanStoredV1 [some 10, some 20, some 30] : ℝ)) /
        stdStoredV1 [some 10, some 20, some 30] - 1.22| ≤ 1/10 := by
  have hm : meanStoredV1 [some 10, some 20, some 30] = 20 := by
    simp only [meanStoredV1]
    rw [show dropnaQ [some 10, some 20, some 30] = [10, 20, 30] from rfl]
    norm_num [listMean]
  refine ⟨hm, stdStoredV1_c2, ?_, ?_, ?_⟩
  · rw [stdStoredV1_c2]
    rw [show |(10:ℝ) - 8.16| = 1.84 by rw [abs_of_pos] <;> norm_num]
    norm_num
  · rw [hm, stdStoredV1_c2]
    norm_num
  · rw [hm, stdStoredV1_c2]
    rw [show (30 - ((20:ℚ):ℝ)) / 10 = 1 by norm_num]
    rw [show |(1:ℝ) - 1.22| = 0.22 by rw [abs_of_neg] <;> norm_num]
    norm_num

/-- C2 amended: for the three-row season with points per game 10, 20,
30 the v1 aggregator yields mean 20 and sample standard deviation
exactly 10 (pandas `std()` uses ddof = 1), and the 30-point row's
points z-score before clamping is exactly (30 - 20) / 10 = 1. -/
theorem league_stats_c2_amended :
    meanStoredV1 [some 10, some 20, some 30] = 20
    ∧ stdStoredV1 [some 10, some 20, some 30] = 10
    ∧ (30 - (meanStoredV1 [some 10, some 20, some 30] : ℝ)) /
        stdStoredV1 [some 10, some 20, some 30] = 1 := by
  have hm : meanStoredV1 [some 10, some 20, some 30] = 20 := by
    simp only [meanStoredV1]
    rw [show dropnaQ [some 10, some 20, some 30] = [10, 20, 30] from rfl]
    norm_num [listMean]
  refine ⟨hm, stdStoredV1_c2, ?_⟩
  rw [hm, stdStoredV1_c2]
  norm_num

/-- C3 counterexample: the v1 aggregator has no standard deviation
floor: a column with two equal values stores standard deviation 0,
below the claimed 0.001 minimum. -/
theorem stdStoredV1_no_floor :
    stdStoredV1 [some 5, some 5] = 0
    ∧ ¬ (1/1000 : ℝ) ≤ stdStoredV1 [some 5, some 5] := by
  have h : stdStoredV1 [some 5, some 5] = 0 := by
    simp only [stdStoredV1]
    rw [if_pos (show 1 < (dropnaQ [some 5, some 5]).length by decide)]
    rw [show sampleVar (dropnaQ [some 5, some 5]) = 0 by
      rw [show dropnaQ [some 5, some 5] = [5, 5] from rfl]
      norm_num [sampleVar, listMean]]
    simp [Real.sqrt_zero]
  refine ⟨h, ?_⟩
  rw [h]
  norm_num

/-- C3 amended: the v2 and v3 aggregators do floor every stored
standard deviation at 0.001 (v2 replaces anything smaller by 1.0, v3
takes a max with 0.001); the v1 aggregator stores the raw sample
standard deviation with no floor and can store 0. -/
theorem stdStored_floor_v2_v3 (col : List (Option ℚ)) :
    (1/1000 : ℝ) ≤ stdStoredV2 col ∧ (1/1000 : ℝ) ≤ stdStoredV3 col := by
  constructor
  · simp only [stdStoredV2]
    split_ifs with h1 h2 h3 <;>
      first | exact le_of_not_lt h3 | norm_num
  · simp only [stdStoredV3]
    split_ifs <;> first | exact le_max_left _ _ | norm_num

/-- C4 counterexample: the hybrid label "guard-forward" does not map to
the midpoint 2.5: `_pos_num` uppercases the label before the lookup, so
the first dash component becomes "GUARD", which is in neither position
map (the imputer map only has the mixed-case key "Guard"), and the
default 3.0 is returned by both the v1 engine and the imputer. -/
theorem posNum_guard_forward_not_midpoint :
    posNumV1 (some "guard-forward") = 3
    ∧ posNumImputer (some "guard-forward") = 3
    ∧ (3 : ℚ) ≠ 5/2 := by
  refine ⟨rfl, rfl, by norm_num⟩

/-- C4 amended: the mapper resolves a label by its first dash or slash
component after uppercasing.  The single-letter combined codes map to
midpoints (G to 1.5, GF to 2.5, F to 3.5, FC to 4.5), a dashed hybrid
label maps to the value of its first component alone (G-F to 1.5, not
2.5; PG-SG to 1.0), spelled-out labels such as "guard-forward" are not
recognized after uppercasing, and every unrecognized or missing label
defaults to 3.0. -/
theorem posNum_amended :
    posNumV1 (some "G") = 3/2 ∧ posNumV1 (some "GF") = 5/2
    ∧ posNumV1 (some "F") = 7/2 ∧ posNumV1 (some "FC") = 9/2
    ∧ posNumV1 (some "G-F") = 3/2 ∧ posNumV1 (some "F-C") = 7/2
    ∧ posNumV1 (some "PG-SG") = 1 ∧ posNumV1 (some "G/F") = 3/2
    ∧ posNumV1 (some "guard-forward") = 3
    ∧ posNumV1 none = 3 ∧ posNumV1 (some "") = 3
    ∧ posNumImputer (some "G") = 3/2 ∧ posNumImputer (some "GF") = 5/2
    ∧ posNumImputer (some "FC") = 9/2
    ∧ posNumImputer (some "guard-forward") = 3
    ∧ posNumImputer (some "Guard") = 3
    ∧ posNumImputer none = 3 ∧ posNumImputer (some "") = 3
    ∧ (∀ s : String, POS_MAP_V1.lookup (normPosKey s) = none →
        posNumV1 (some s) = 3)
    ∧ (∀ s : String, POS_MAP_IMP.lookup (normPosKey s) = none →
        posNumImputer (some s) = 3) := by
  refine ⟨rfl, rfl, rfl, rfl, rfl, rfl, rfl, rfl, rfl, rfl, rfl, rfl, rfl,
    rfl, rfl, rfl, rfl, rfl, ?_, ?_⟩
  · intro s h
    simp only [posNumV1]
    split_ifs with he
    · rfl
    · rw [h]; rfl
  · intro s h
    simp only [posNumImputer]
    split_ifs with he
    · rfl
    · rw [h]; rfl

theorem max_w_v2_eval : MAX_W_V2 = 1.3571 := by
  simp only [MAX_W_V2, RAW_WEIGHTS_V2, List.map, List.foldl]
  norm_num [max_def, abs]

theorem weights_v3_blk_eval : WEIGHTS_V3 BStat.blk = 371/1000 := by
  simp only [WEIGHTS_V3, ADJUSTED_WEIGHTS_V3, BPM_WEIGHTS_V3, ADJUSTMENTS_V3,
    roundQ, rheQ]
  norm_num [abs]

theorem weights_v3_drb_eval : WEIGHTS_V3 BStat.drb = 2426/10000 := by
  simp only [WEIGHTS_V3, ADJUSTED_WEIGHTS_V3, BPM_WEIGHTS_V3, ADJUSTMENTS_V3,
    roundQ, rheQ]
  norm_num [abs]

/-- C5 counterexample: in the v3 engine the interpolated blocks
coefficient strictly decreases from the guard end (pos 1, t = 0) to the
center end (pos 5, t = 1): the POS_ADJUSTMENTS pair for blocks is
(1.30, 0.85) with the larger multiplier on the guard side, so the
claimed monotonicity fails for a center-favoring stat. -/
theorem pos_weight_v3_blk_decreases :
    get_pos_weight_v3 .blk 5 < get_pos_weight_v3 .blk 1 := by
  simp only [get_pos_weight_v3, POS_ADJ_V3, weights_v3_blk_eval, pos_interp]
  norm_num

theorem pos_interp_mono (p1 p2 : ℚ) (hp : p1 ≤ p2) :
    pos_interp p1 ≤ pos_interp p2 := by
  unfold pos_interp
  exact max_le_max le_rfl (min_le_min le_rfl (by linarith))

theorem interp_mono_aux (b g c t1 t2 : ℚ) (hb : 0 ≤ b) (hgc : g ≤ c)
    (ht : t1 ≤ t2) :
    b * ((1 - t1) * g + t1 * c) ≤ b * ((1 - t2) * g + t2 * c) := by
  nlinarith [mul_nonneg (mul_nonneg hb (sub_nonneg.mpr ht)) (sub_nonneg.mpr hgc)]

/-- C5 amended: the interpolated coefficient of a center-favoring stat
is non-decreasing in the position fraction for the v1 DPMI weights
(blocks and defensive rebounds) and for the v2 engine (blocks,
defensive and offensive rebounds), and for defensive rebounds in the v3
engine; in the v3 engine the blocks (and offensive rebounds)
adjustments instead favor guards, so monotonicity fails there (see the
counterexample). -/
theorem pos_weight_monotone_amended (t1 t2 p1 p2 : ℚ) (ht0 : 0 ≤ t1)
    (ht : t1 ≤ t2) (ht1 : t2 ≤ 1) (hp : p1 ≤ p2) :
    interp_dpmi_weights t1 .blk ≤ interp_dpmi_weights t2 .blk
    ∧ interp_dpmi_weights t1 .drb ≤ interp_dpmi_weights t2 .drb
    ∧ get_pos_weight_v2 .blk p1 ≤ get_pos_weight_v2 .blk p2
    ∧ get_pos_weight_v2 .drb p1 ≤ get_pos_weight_v2 .drb p2
    ∧ get_pos_weight_v2 .orb p1 ≤ get_pos_weight_v2 .orb p2
    ∧ get_pos_weight_v3 .drb p1 ≤ get_pos_weight_v3 .drb p2 := by
  have htm := pos_interp_mono p1 p2 hp
  refine ⟨?_, ?_, ?_, ?_, ?_, ?_⟩
  · simp only [interp_dpmi_weights, W_DPMI_GUARD, W_DPMI_CENTER]
    linarith
  · simp only [interp_dpmi_weights, W_DPMI_GUARD, W_DPMI_CENTER]
    linarith
  · simp only [get_pos_weight_v2, POS_ADJ_V2]
    exact interp_mono_aux _ _ _ _ _
      (by rw [WEIGHTS_V2, max_w_v2_eval, RAW_WEIGHTS_V2]; norm_num)
      (by norm_num) htm
  · simp only [get_pos_weight_v2, POS_ADJ_V2]
    exact interp_mono_aux _ _ _ _ _
      (by rw [WEIGHTS_V2, max_w_v2_eval, RAW_WEIGHTS_V2]; norm_num)
      (by norm_num) htm
  · simp only [get_pos_weight_v2, POS_ADJ_V2]
    exact interp_mono_aux _ _ _ _ _
      (by rw [WEIGHTS_V2, max_w_v2_eval, RAW_WEIGHTS_V2]; norm_num)
      (by norm_num) htm
  · simp only [get_pos_weight_v3, POS_ADJ_V3]
    exact interp_mono_aux _ _ _ _ _
      (by rw [weights_v3_drb_eval]; norm_num) (by norm_num) htm

set_option maxHeartbeats 1000000 in
theorem eraAvgFor_spec (y : ℤ) :
    eraAvgFor y =
      if 2024 ≤ y then ⟨some 0.72, some 0.47, 4.3, 14.0, 3.4⟩
      else if 2020 ≤ y then ⟨some 0.70, some 0.47, 4.3, 13.5, 3.2⟩
      else if 2015 ≤ y then ⟨some 0.72, some 0.48, 4.2, 13.0, 3.0⟩
      else if 2010 ≤ y then ⟨some 0.72, some 0.48, 4.2, 12.5, 2.8⟩
      else if 2005 ≤ y then ⟨some 0.75, some 0.48, 4.2, 12.0, 2.8⟩
      else if 2000 ≤ y then ⟨some 0.78, some 0.45, 4.2, 11.8, 2.6⟩
      else if 1997 ≤ y then ⟨some 0.90, some 0.50, 4.2, 11.5, 2.5⟩
      else if 1994 ≤ y then ⟨some 0.96, some 0.52, 4.3, 12.0, 2.8⟩
      else if 1990 ≤ y then ⟨some 1.01, some 0.57, 4.5, 12.5, 3.0⟩
      else if 1986 ≤ y then ⟨some 1.06, some 0.62, 4.8, 12.8, 3.2⟩
      else if 1982 ≤ y then ⟨some 1.14, some 0.66, 5.0, 12.5, 3.0⟩
      else if 1978 ≤ y then ⟨some 1.20, some 0.70, 5.3, 12.8, 3.2⟩
      else if 1974 ≤ y then ⟨some 1.14, some 0.72, 5.5, 12.5, 3.0⟩
      else if 1960 ≤ y then ⟨none, none, 10.0, 14.0, 3.0⟩
      else if 1955 ≤ y then ⟨none, none, 9.5, 13.0, 2.8⟩
      else ⟨none, none, 8.0, 12.0, 2.5⟩ := by
  unfold eraAvgFor eraYearFor eraKeys ERA_LEAGUE_AVGS
  simp only [List.map, List.foldl, List.headD, ge_iff_le]
  rcases le_or_lt 2024 y with h2024 | h2024
  · rw [if_pos h2024, if_pos h2024]
    rfl
  rw [if_neg (not_le.mpr h2024), if_neg (not_le.mpr h2024)]
  rcases le_or_lt 2020 y with h2020 | h2020
  · rw [if_pos h2020, if_pos h2020]
    rfl
  rw [if_neg (not_le.mpr h2020), if_neg (not_le.mpr h2020)]
  rcases le_or_lt 2015 y with h2015 | h2015
  · rw [if_pos h2015, if_pos h2015]
    rfl
  rw [if_neg (not_le.mpr h2015), if_neg (not_le.mpr h2015)]
  rcases le_or_lt 2010 y with h2010 | h2010
  · rw [if_pos h2010, if_pos h2010]
    rfl
  rw [if_neg (not_le.mpr h2010), if_neg (not_le.mpr h2010)]
  rcases le_or_lt 2005 y with h2005 | h2005
  · rw [if_pos h2005, if_pos h2005]
    rfl
  rw [if_neg (not_le.mpr h2005), if_neg (not_le.mpr h2005)]
  rcases le_or_lt 2000 y with h2000 | h2000
  · rw [if_pos h2000, if_pos h2000]
    rfl
  rw [if_neg (not_le.mpr h2000), if_neg (not_le.mpr h2000)]
  rcases le_or_lt 1997 y with h1997 | h1997
  · rw [if_pos h1997, if_pos h1997]
    rfl
  rw [if_neg (not_le.mpr h1997), if_neg (not_le.mpr h1997)]
  rcases le_or_lt 1994 y with h1994 | h1994
  · rw [if_pos h1994, if_pos h1994]
    rfl
  rw [if_neg (not_le.mpr h1994), if_neg (not_le.mpr h1994)]
  rcases le_or_lt 1990 y with h1990 | h1990
  · rw [if_pos h1990, if_pos h1990]
    rfl
  rw [if_neg (not_le.mpr h1990), if_neg (not_le.mpr h1990)]
  rcases le_or_lt 1986 y with h1986 | h1986
  · rw [if_pos h1986, if_pos h1986]
    rfl
  rw [if_neg (not_le.mpr h1986), if_neg (not_le.mpr h1986)]
  rcases le_or_lt 1982 y with h1982 | h1982
  · rw [if_pos h1982, if_pos h1982]
    rfl
  rw [if_neg (not_le.mpr h1982), if_neg (not_le.mpr h1982)]
  rcases le_or_lt 1978 y with h1978 | h1978
  · rw [if_pos h1978, if_pos h1978]
    rfl
  rw [if_neg (not_le.mpr h1978), if_neg (not_le.mpr h1978)]
  rcases le_or_lt 1974 y with h1974 | h1974
  · rw [if_pos h1974, if_pos h1974]
    rfl
  rw [if_neg (not_le.mpr h1974), if_neg (not_le.mpr h1974)]
  rcases le_or_lt 1960 y with h1960 | h1960
  · rw [if_pos h1960, if_pos h1960]
    rfl
  rw [if_neg (not_le.mpr h1960), if_neg (not_le.mpr h1960)]
  rcases le_or_lt 1955 y with h1955 | h1955
  · rw [if_pos h1955, if_pos h1955]
    rfl
  rw [if_neg (not_le.mpr h1955), if_neg (not_le.mpr h1955)]
  rcases le_or_lt 1946 y with h1946 | h1946
  · rw [if_pos h1946]
    rfl
  · rw [if_neg (not_le.mpr h1946)]
    rfl

/-- C6 confirmed: for every season start year all three era deflator
multipliers are at most 1; from the reference era (2010) onward all
three equal exactly 1; a category with no historical average for the
era (steals and blocks before 1974) yields multiplier 1; and the
rebounds multiplier is below 1 exactly when the era bracket average
exceeds the reference average 4.2 by more than five percent. -/
theorem era_deflators_c6 (y : ℤ) :
    ((get_era_deflators y).stl ≤ 1 ∧ (get_era_deflators y).blk ≤ 1
      ∧ (get_era_deflators y).trb ≤ 1)
    ∧ (2010 ≤ y → (get_era_deflators y).stl = 1
        ∧ (get_era_deflators y).blk = 1 ∧ (get_era_deflators y).trb = 1)
    ∧ ((eraAvgFor y).stl = none → (get_era_deflators y).stl = 1)
    ∧ ((eraAvgFor y).blk = none → (get_era_deflators y).blk = 1)
    ∧ ((get_era_deflators y).trb < 1 ↔ (eraAvgFor y).trb > 4.2 * 1.05) := by
  refine ⟨⟨?_, ?_, ?_⟩, ?_, ?_, ?_, ?_⟩
  · simp only [get_era_deflators]
    cases h : (eraAvgFor y).stl <;> simp only [h]
    · exact le_refl 1
    · split_ifs
      · exact min_le_left _ _
      · exact le_refl 1
  · simp only [get_era_deflators]
    cases h : (eraAvgFor y).blk <;> simp only [h]
    · exact le_refl 1
    · split_ifs
      · exact min_le_left _ _
      · exact le_refl 1
  · simp only [get_era_deflators]
    split_ifs
    · exact min_le_left _ _
    · exact le_refl 1
  · intro hy
    have hs := eraAvgFor_spec y
    rcases le_or_lt 2024 y with h24 | h24
    · rw [if_pos h24] at hs
      simp only [get_era_deflators, hs]
      norm_num [REF_ERA_STL, REF_ERA_BLK, REF_ERA_TRB, min_def]
    · rcases le_or_lt 2020 y with h20 | h20
      · rw [if_neg (by omega), if_pos h20] at hs
        simp only [get_era_deflators, hs]
        norm_num [REF_ERA_STL, REF_ERA_BLK, REF_ERA_TRB, min_def]
      · rcases le_or_lt 2015 y with h15 | h15
        · rw [if_neg (by omega), if_neg (by omega), if_pos h15] at hs
          simp only [get_era_deflators, hs]
          norm_num [REF_ERA_STL, REF_ERA_BLK, REF_ERA_TRB, min_def]
        · rw [if_neg (by omega), if_neg (by omega), if_neg (by omega),
            if_pos hy] at hs
          simp only [get_era_deflators, hs]
          norm_num [REF_ERA_STL, REF_ERA_BLK, REF_ERA_TRB, min_def]
  · intro h
    simp only [get_era_deflators, h]
  · intro h
    simp only [get_era_deflators, h]
  · simp only [get_era_deflators]
    split_ifs with hc
    · have hc' : (4.41 : ℚ) < (eraAvgFor y).trb := by
        simp only [REF_ERA_TRB] at hc
        norm_num at hc
        linarith
      constructor
      · intro _
        exact hc
      · intro _
        have htrb : (0:ℚ) < (eraAvgFor y).trb := by linarith
        have hlt : REF_ERA_TRB / (eraAvgFor y).trb < 1 := by
          rw [div_lt_one htrb]
          simp only [REF_ERA_TRB]
          linarith
        calc min 1 (REF_ERA_TRB / (eraAvgFor y).trb)
            ≤ REF_ERA_TRB / (eraAvgFor y).trb := min_le_right _ _
        _ < 1 := hlt
    · constructor
      · intro hlt
        norm_num at hlt
      · intro hgt
        exact absurd hgt hc

theorem qualify_replicate (n : ℕ) :
    qualifyRows (List.replicate n sampleTrainRow) = List.replicate n sampleTrainRow := by
  simp only [qualifyRows]
  rw [List.filter_replicate, if_pos (by norm_num [ogeB, sampleTrainRow])]
  rw [List.filter_replicate, if_pos (by norm_num [ogeB, sampleTrainRow])]
  rw [List.filter_replicate, if_pos (by norm_num [ogeB, sampleTrainRow])]
  rw [List.filter_replicate, if_pos (by norm_num [ogtB, sampleTrainRow])]
  rw [List.filter_replicate, if_pos (by norm_num [ogeB, sampleTrainRow])]
  rw [show hfill (List.replicate n sampleTrainRow) = List.replicate n sampleTrainRow by
    unfold hfill
    rw [List.any_replicate]
    rw [if_neg (by
      split_ifs with h
      · simp
      · norm_num [sampleTrainRow])]]
  rw [List.filter_replicate, if_pos (by simp [sampleTrainRow])]

/-- C7 confirmed: training on any corpus with fewer than 200 qualifying
rows returns the structured insufficient-data result and leaves the
state untouched (hence untrained), and the untrained imputer predicts
exactly (0.0, 0.0) for every row. -/
theorem imputer_insufficient_c7 (fitS : List (List ℚ) → Scaler)
    (fitR : List (List ℚ) → List ℚ → LinModel) (rows : List TrainRow)
    (h : (qualifyRows rows).length < 200) :
    trainImputer fitS fitR rows initImputer =
      (TrainResult.insufficient (qualifyRows rows).length, initImputer)
    ∧ ∀ row, predictImputer initImputer row = (0, 0) := by
  constructor
  · simp only [trainImputer]
    rw [if_pos h]
  · intro row
    rfl

theorem imputer_insufficient_c7_witness :
    trainImputer constFitScaler constFitRidge rows50 initImputer =
      (TrainResult.insufficient (qualifyRows rows50).length, initImputer)
    ∧ predictImputer initImputer samplePlayerRow = (0, 0) := by
  have h : (qualifyRows rows50).length < 200 := by
    rw [show rows50 = List.replicate 50 sampleTrainRow from rfl, qualify_replicate]
    simp
  exact ⟨(imputer_insufficient_c7 constFitScaler constFitRidge rows50 h).1,
    (imputer_insufficient_c7 constFitScaler constFitRidge rows50 h).2 samplePlayerRow⟩

theorem getD_replicate_lt {α : Type} (n i : ℕ) (c d : α) (h : i < n) :
    (List.replicate n c).getD i d = c := by
  rw [List.getD_eq_getElem?_getD, List.getElem?_replicate, if_pos h]
  rfl

theorem listMean_replicate (n : ℕ) (hn : n ≠ 0) (c : ℚ) :
    listMean (List.replicate n c) = c := by
  unfold listMean
  rw [List.sum_replicate, List.length_replicate, nsmul_eq_mul]
  have hc : (n : ℚ) ≠ 0 := by exact_mod_cast hn
  field_simp

theorem quantile95_replicate250 (c : ℚ) :
    quantile95 (List.replicate 250 c) = c := by
  simp only [quantile95]
  rw [List.Sorted.insertionSort_eq (List.pairwise_replicate.mpr (Or.inr (le_refl c)))]
  rw [List.length_replicate]
  have hcast : ((250 : ℕ) : ℚ) = 250 := by norm_num
  rw [hcast]
  have hh : (0.95 : ℚ) * ((250 : ℚ) - 1) = 236.55 := by norm_num
  rw [hh]
  have hf : ⌊(236.55 : ℚ)⌋ = 236 := by norm_num
  rw [hf]
  rw [getD_replicate_lt 250 ((236 : ℤ).toNat) c 0 (by decide)]
  rw [getD_replicate_lt 250 ((236 : ℤ).toNat + 1) c c (by decide)]
  norm_num

theorem sampleFeats_eval :
    sampleTrainRow.feats.map (fun o => o.getD 0) =
      [3, 78, 5, 2, 2, 30, 10, 8, 14, 0.5, 1, 3, 1] := by
  simp [sampleTrainRow]

theorem replicate13_one : List.replicate 13 (1:ℚ) = [1,1,1,1,1,1,1,1,1,1,1,1,1] := rfl

theorem replicate13_zero : List.replicate 13 (0:ℚ) = [0,0,0,0,0,0,0,0,0,0,0,0,0] := rfl

set_option maxRecDepth 4000 in
theorem transform_sample :
    scalerTransform ⟨[3, 78, 5, 2, 2, 30, 10, 8, 14, 0.5, 1, 3, 1],
        List.replicate 13 1⟩ [3, 78, 5, 2, 2, 30, 10, 8, 14, 0.5, 1, 3, 1] =
      List.replicate 13 0 := by
  rw [replicate13_zero, replicate13_one]
  simp [scalerTransform, List.zip, List.zipWith]

theorem trainedOnRows250_eval :
    trainedOnRows250 =
      ⟨some ⟨List.replicate 13 0, 3/500⟩, some ⟨List.replicate 13 0, 3/500⟩,
       some ⟨[3, 78, 5, 2, 2, 30, 10, 8, 14, 0.5, 1, 3, 1], List.replicate 13 1⟩,
       some ⟨[3, 78, 5, 2, 2, 30, 10, 8, 14, 0.5, 1, 3, 1], List.replicate 13 1⟩,
       3/500, 3/500, true⟩ := by
  unfold trainedOnRows250
  simp only [trainImputer]
  rw [show rows250 = List.replicate 250 sampleTrainRow from rfl, qualify_replicate]
  rw [if_neg (by rw [List.length_replicate]; norm_num)]
  have hX : (List.replicate 250 sampleTrainRow).map
      (fun r => r.feats.map (fun o => o.getD 0)) =
      List.replicate 250 [3, 78, 5, 2, 2, 30, 10, 8, 14, 0.5, 1, 3, 1] := by
    rw [List.map_replicate, sampleFeats_eval]
  have hys : (List.replicate 250 sampleTrainRow).map (fun r => r.spg.getD 0) =
      List.replicate 250 (3/500) := by
    rw [List.map_replicate]
    norm_num [sampleTrainRow]
  have hyb : (List.replicate 250 sampleTrainRow).map (fun r => r.bpg.getD 0) =
      List.replicate 250 (3/500) := by
    rw [List.map_replicate]
    norm_num [sampleTrainRow]
  rw [hX, hys, hyb, quantile95_replicate250]
  rw [show constFitScaler
        (List.replicate 250 [3, 78, 5, 2, 2, 30, 10, 8, 14, 0.5, 1, 3, 1]) =
      ⟨[3, 78, 5, 2, 2, 30, 10, 8, 14, 0.5, 1, 3, 1], List.replicate 13 1⟩ from rfl]
  rw [List.map_replicate, transform_sample]
  rw [show constFitRidge (List.replicate 250 (List.replicate 13 0))
        (List.replicate 250 (3/500)) =
      ⟨List.replicate 13 0, listMean (List.replicate 250 (3/500))⟩ from rfl]
  rw [listMean_replicate 250 (by norm_num) (3/500)]

set_option maxRecDepth 4000 in
theorem predict_c8_eval :
    predictImputer trainedOnRows250 samplePlayerRow = (1/100, 1/100) := by
  rw [trainedOnRows250_eval]
  simp only [predictImputer]
  rw [if_neg (by norm_num)]
  rw [replicate13_zero, replicate13_one]
  norm_num [gv, samplePlayerRow, scalerTransform, linPredict, roundQ, rheQ,
    List.zip, List.zipWith, List.foldl, min_def, max_def]

/-- C8 amended: once trained (with the non-negative caps every training
run produces), every prediction component lies in
`[0, cap + 0.005]`: the clamp puts the raw prediction in `[0, cap]` and
the final round to two decimals can push it at most half a cent above
the cap (and the counterexample shows it can indeed exceed the cap, so
`[0, cap]` itself does not hold). -/
theorem predict_in_caps_c8_amended (st : ImputerState) (row : PlayerRow)
    (htr : st.is_trained = true) (hsc : 0 ≤ st.stl_cap) (hbc : 0 ≤ st.blk_cap) :
    0 ≤ (predictImputer st row).1
    ∧ (predictImputer st row).1 ≤ st.stl_cap + 1/200
    ∧ 0 ≤ (predictImputer st row).2
    ∧ (predictImputer st row).2 ≤ st.blk_cap + 1/200 := by
  simp only [predictImputer, htr]
  rw [if_neg (by simp)]
  cases hss : st.stl_scaler <;> cases hsm : st.stl_model <;>
    cases hbs : st.blk_scaler <;> cases hbm : st.blk_model <;>
    simp only [hss, hsm, hbs, hbm] <;>
    first
      | exact ⟨le_refl 0, by linarith, le_refl 0, by linarith⟩
      | exact ⟨roundQ2_nonneg _ (le_max_left _ _),
          roundQ2_le _ _ (max_le hsc (min_le_left _ _)),
          roundQ2_nonneg _ (le_max_left _ _),
          roundQ2_le _ _ (max_le hbc (min_le_left _ _))⟩

theorem predict_in_caps_c8_amended_witness :
    0 ≤ (predictImputer trainedOnRows250 samplePlayerRow).1
    ∧ (predictImputer trainedOnRows250 samplePlayerRow).1 ≤
        trainedOnRows250.stl_cap + 1/200
    ∧ 0 ≤ (predictImputer trainedOnRows250 samplePlayerRow).2
    ∧ (predictImputer trainedOnRows250 samplePlayerRow).2 ≤
        trainedOnRows250.blk_cap + 1/200 :=
  predict_in_caps_c8_amended trainedOnRows250 samplePlayerRow
    (by rw [trainedOnRows250_eval])
    (by rw [trainedOnRows250_eval]; norm_num)
    (by rw [trainedOnRows250_eval]; norm_num)

/-- C8 counterexample: training on a 250-row qualifying corpus whose
steals target is uniformly 0.006 yields stl_cap = 0.006 (the 95th
percentile), yet predict returns 0.01 — the final rounding to two
decimals pushes the clamped prediction above the cap, so the returned
steals prediction does not lie within `[0, stl_cap]`. -/
theorem predict_cap_exceeded_c8 :
    trainedOnRows250.is_trained = true
    ∧ predictImputer trainedOnRows250 samplePlayerRow = (1/100, 1/100)
    ∧ ¬ (predictImputer trainedOnRows250 samplePlayerRow).1 ≤
        trainedOnRows250.stl_cap := by
  refine ⟨by rw [trainedOnRows250_eval], predict_c8_eval, ?_⟩
  rw [predict_c8_eval, trainedOnRows250_eval]
  norm_num

theorem sortDesc_cons_of_max (M : ℚ) (xs : List ℚ) (hne : xs ≠ [])
    (h : ∀ x ∈ xs, x ≤ M) : sortDesc (M :: xs) = M :: sortDesc xs := by
  unfold sortDesc
  rw [List.insertionSort]
  have hperm := List.perm_insertionSort (fun a b : ℚ => a ≥ b) xs
  have hlen : (xs.insertionSort (· ≥ ·)).length = xs.length := hperm.length_eq
  obtain ⟨b, l, hb⟩ : ∃ b l, xs.insertionSort (· ≥ ·) = b :: l := by
    cases hsort : xs.insertionSort (· ≥ ·) with
    | nil =>
        exfalso
        apply hne
        rw [hsort] at hlen
        exact List.length_eq_zero.mp hlen.symm
    | cons b l => exact ⟨b, l, rfl⟩
  rw [hb, List.orderedInsert, if_pos]
  have hbmem : b ∈ xs := hperm.mem_iff.mp (by rw [hb]; exact List.mem_cons_self b l)
  exact h b hbmem

theorem pwWeight_nonneg (ys : List ℚ) : 0 ≤ pwWeight ys := by
  induction ys with
  | nil => simp [pwWeight]
  | cons x rest ih =>
      rw [pwWeight]
      have := Real.sqrt_nonneg ((rest.length : ℝ) + 1)
      linarith

theorem pwWeight_pos (ys : List ℚ) (hne : ys ≠ []) : 0 < pwWeight ys := by
  cases ys with
  | nil => exact absurd rfl hne
  | cons x rest =>
      rw [pwWeight]
      have h1 : 0 < Real.sqrt ((rest.length : ℝ) + 1) :=
        Real.sqrt_pos.mpr (by positivity)
      have h2 := pwWeight_nonneg rest
      linarith

theorem pwSum_le_mul (ys : List ℚ) (M : ℚ) (h : ∀ x ∈ ys, x ≤ M) :
    pwSum ys ≤ (M : ℝ) * pwWeight ys := by
  induction ys with
  | nil => simp [pwSum, pwWeight]
  | cons x rest ih =>
      rw [pwSum, pwWeight]
      have hx : (x : ℝ) ≤ (M : ℝ) := by
        exact_mod_cast h x (List.mem_cons_self x rest)
      have hr : pwSum rest ≤ (M : ℝ) * pwWeight rest :=
        ih (fun y hy => h y (List.mem_cons_of_mem x hy))
      have hs := Real.sqrt_nonneg ((rest.length : ℝ) + 1)
      nlinarith


theorem sortDescLen (xs : List ℚ) : (sortDesc xs).length = xs.length :=
  (List.perm_insertionSort (fun a b : ℚ => a ≥ b) xs).length_eq

/-- C9 counterexample: starting from an empty career (result 0), adding
a single season with score -5 — vacuously at least as large as every
existing score — drops the career score to -3.125, so the claim fails
as stated for the empty list of season scores. -/
theorem career_pmi_empty_drop_c9 :
    (∀ x ∈ ([] : List ℚ), x ≤ -5)
    ∧ compute_career_pmi [-5] 100 false 0 < compute_career_pmi [] 100 false 0 := by
  have hw : pwWeight [-5] = 1 := by
    rw [pwWeight, pwWeight]
    simp [Real.sqrt_one]
  have hs : pwSum [-5] = -5 := by
    rw [pwSum, pwSum]
    simp [Real.sqrt_one]
  constructor
  · intro x hx
    exact absurd hx (List.not_mem_nil x)
  · have hempty : compute_career_pmi [] 100 false 0 = 0 := by
      simp [compute_career_pmi]
    have hone : compute_career_pmi [-5] 100 false 0 = -(25 : ℝ)/8 := by
      simp only [compute_career_pmi]
      rw [if_neg (by simp)]
      rw [show sortDesc [-5] = [-5] from rfl]
      rw [hw, hs]
      rw [if_pos (show (1:ℝ) > 0 by norm_num)]
      norm_num [Bool.false_eq_true, GP_HALF_REG, GP_HALF_PLAYOFF]
      unfold roundR4 rheR
      norm_num
    rw [hempty, hone]
    norm_num

theorem shrink_mono (a b c t : ℝ) (ht : 0 ≤ t) (hab : a ≤ b) :
    t * a + c ≤ t * b + c := by
  nlinarith [mul_le_mul_of_nonneg_left hab ht]

/-- C9 amended: for every nonempty list of season scores, adding a new
season score at least as large as every existing one never decreases
the career score under rank weighting with total games fixed: the new
maximum sorts to the front with weight `sqrt(n + 1)` while every other
season keeps its weight, so the peak-weighted average cannot drop, the
shrinkage trust factor is unchanged, and the final half-even rounding
is monotone.  (The empty list is the one exception: see the
counterexample.) -/
theorem career_pmi_add_best_c9_amended (xs : List ℚ) (M : ℚ) (total_gp : ℕ)
    (is_playoff : Bool) (league_mean : ℚ) (hne : xs ≠ [])
    (hM : ∀ x ∈ xs, x ≤ M) :
    compute_career_pmi xs total_gp is_playoff league_mean ≤
      compute_career_pmi (M :: xs) total_gp is_playoff league_mean := by
  simp only [compute_career_pmi]
  rw [if_neg hne, if_neg (List.cons_ne_nil M xs)]
  rw [sortDesc_cons_of_max M xs hne hM]
  have hyne : sortDesc xs ≠ [] := by
    have hlen := sortDescLen xs
    intro hcon
    apply hne
    rw [hcon] at hlen
    exact List.length_eq_zero.mp hlen.symm
  have hymem : ∀ x ∈ sortDesc xs, x ≤ M := fun x hx =>
    hM x ((List.perm_insertionSort (fun a b : ℚ => a ≥ b) xs).mem_iff.mp hx)
  have hW := pwWeight_pos (sortDesc xs) hyne
  have hWn : 0 < pwWeight (M :: sortDesc xs) :=
    pwWeight_pos _ (List.cons_ne_nil M (sortDesc xs))
  rw [if_pos (show pwWeight (sortDesc xs) > 0 from hW),
    if_pos (show pwWeight (M :: sortDesc xs) > 0 from hWn)]
  apply roundR4_mono
  have havg : pwSum (sortDesc xs) / pwWeight (sortDesc xs) ≤
      pwSum (M :: sortDesc xs) / pwWeight (M :: sortDesc xs) := by
    have hS := pwSum_le_mul (sortDesc xs) M hymem
    have hw0 : (0:ℝ) ≤ Real.sqrt (((sortDesc xs).length : ℝ) + 1) :=
      Real.sqrt_nonneg _
    rw [div_le_div_iff hW hWn]
    rw [pwSum, pwWeight]
    nlinarith
  apply shrink_mono _ _ _ _ ?_ havg
  apply div_nonneg (by positivity)
  have h0 : (0:ℝ) ≤ (total_gp : ℝ) := by positivity
  cases is_playoff <;> norm_num [GP_HALF_PLAYOFF, GP_HALF_REG] <;> linarith

theorem career_pmi_add_best_c9_witness :
    compute_career_pmi [1] 10 false 0 ≤ compute_career_pmi (2 :: [1]) 10 false 0 :=
  career_pmi_add_best_c9_amended [1] 2 10 false 0 (by simp)
    (by
      intro x hx
      rw [List.mem_singleton] at hx
      rw [hx]
      norm_num)

/-- C10 counterexample: a pre-1973 row whose steals, blocks and
defensive rebounds are all NaN (the pandas missing value for an absent
statistic) while fouls are the number 2 skips the sentinel of
`compute_dpmi` — `spg_val == 0`, `bpg_val == 0` and `drb == 0` are all
False for NaN — so with league means 1 and stds 1 at position 3 the
function returns the nonzero fouls-only value -0.1275, and the season
loop at year 1960 keeps that value and never calls the ML imputer even
though a model is present. -/
theorem dpmi_nan_skips_sentinel_c10 :
    compute_dpmi
      ⟨PyFloat.nan, PyFloat.nan, PyFloat.nan, PyFloat.num 2,
        none, none, none, none, none, none⟩
      ⟨1, 1, 1, 1, 1, 1, 1, 1⟩ 3 false = -51/400
    ∧ (-51/400 : ℚ) ≠ 0
    ∧ dpmiForSeasonRow
      ⟨PyFloat.nan, PyFloat.nan, PyFloat.nan, PyFloat.num 2,
        none, none, none, none, none, none⟩
      ⟨1, 1, 1, 1, 1, 1, 1, 1⟩ 3 false 1960
      (some (fun _ => (1 : ℚ))) = -51/400 := by
  have z0 : zScoreV1 PyFloat.nan (PyFloat.num 1) (some 1) = 0 := by
    simp [zScoreV1]
  have z1 : zScoreV1 (PyFloat.num 2) (PyFloat.num 1) (some 1) = 1 := by
    simp only [zScoreV1]
    rw [if_neg (by simp)]
    simp only [nanOpt, pyClampDiv]
    norm_num [max_def, min_def]
  have hval : compute_dpmi
      ⟨PyFloat.nan, PyFloat.nan, PyFloat.nan, PyFloat.num 2,
        none, none, none, none, none, none⟩
      ⟨1, 1, 1, 1, 1, 1, 1, 1⟩ 3 false = -51/400 := by
    simp only [compute_dpmi, pyFloatOrZero]
    rw [if_neg (by simp)]
    rw [z0, z1]
    norm_num [pos_interp, interp_dpmi_weights, W_DPMI_GUARD, W_DPMI_CENTER,
      DPMI_SCALE, DPMI_DAMPENER_REG, roundQ, rheQ, min_def, max_def]
  refine ⟨hval, by norm_num, ?_⟩
  simp only [dpmiForSeasonRow]
  rw [hval, if_neg]
  intro hc
  exact absurd hc.1 (by norm_num)

/-- C10 corrected: (a) the sentinel of `compute_dpmi` fires — the
function returns 0 — whenever each of steals, blocks and defensive
rebounds is None or the literal number 0 (not for NaN, which compares
unequal to 0); (b) under those hypotheses a pre-1973 season with a
model supplied replaces the row's DPMI by the ML imputation; (c) in the
per-row season loop the ML imputation branch runs exactly when the
box-score DPMI is 0, the season starts before 1973, and a model was
supplied; (d) a row whose box-score DPMI is nonzero keeps that value
and is never imputed. -/
theorem dpmi_sentinel_impute_c10 (row : DRow) (lg : DLeague) (pos : ℚ)
    (playoff : Bool) (year : ℤ) (model : Option MLModel)
    (h1 : row.spg = PyFloat.none ∨ row.spg = PyFloat.num 0)
    (h2 : row.bpg = PyFloat.none ∨ row.bpg = PyFloat.num 0)
    (h3 : row.drb_pg = PyFloat.none ∨ row.drb_pg = PyFloat.num 0) :
    compute_dpmi row lg pos playoff = 0
    ∧ (year < 1973 → model.isSome →
        dpmiForSeasonRow row lg pos playoff year model =
          impute_dpmi_ml row model playoff)
    ∧ (∀ r : DRow,
        dpmiForSeasonRow r lg pos playoff year model =
          if compute_dpmi r lg pos playoff = 0 ∧ year < 1973 ∧ model.isSome then
            impute_dpmi_ml r model playoff
          else compute_dpmi r lg pos playoff)
    ∧ (∀ r : DRow, compute_dpmi r lg pos playoff ≠ 0 →
        dpmiForSeasonRow r lg pos playoff year model = compute_dpmi r lg pos playoff) := by
  have hz : compute_dpmi row lg pos playoff = 0 := by
    simp only [compute_dpmi]
    rw [if_pos]
    refine ⟨?_, ?_, ?_⟩
    · rcases h1 with h | h <;> simp [h, pyFloatOrZero]
    · rcases h2 with h | h <;> simp [h, pyFloatOrZero]
    · rcases h3 with h | h <;> simp [h, pyFloatOrZero]
  refine ⟨hz, ?_, fun r => rfl, ?_⟩
  · intro hy hm
    simp only [dpmiForSeasonRow]
    rw [if_pos ⟨hz, hy, hm⟩]
  · intro r h
    simp only [dpmiForSeasonRow]
    rw [if_neg]
    intro hc
    exact h hc.1

theorem dpmi_sentinel_impute_c10_witness :
    compute_dpmi
      ⟨PyFloat.num 0, PyFloat.none, PyFloat.num 0, PyFloat.num 2,
        none, none, none, none, none, none⟩
      ⟨1, 1, 1, 1, 1, 1, 1, 1⟩ 3 false = 0
    ∧ ((1960 : ℤ) < 1973 →
        (some (fun _ => (1 : ℚ)) : Option MLModel).isSome →
        dpmiForSeasonRow
          ⟨PyFloat.num 0, PyFloat.none, PyFloat.num 0, PyFloat.num 2,
            none, none, none, none, none, none⟩
          ⟨1, 1, 1, 1, 1, 1, 1, 1⟩ 3 false 1960 (some (fun _ => (1 : ℚ))) =
          impute_dpmi_ml
            ⟨PyFloat.num 0, PyFloat.none, PyFloat.num 0, PyFloat.num 2,
              none, none, none, none, none, none⟩
            (some (fun _ => (1 : ℚ))) false)
    ∧ (∀ r : DRow,
        dpmiForSeasonRow r ⟨1, 1, 1, 1, 1, 1, 1, 1⟩ 3 false 1960
            (some (fun _ => (1 : ℚ))) =
          if compute_dpmi r ⟨1, 1, 1, 1, 1, 1, 1, 1⟩ 3 false = 0 ∧ (1960 : ℤ) < 1973
              ∧ (some (fun _ => (1 : ℚ)) : Option MLModel).isSome then
            impute_dpmi_ml r (some (fun _ => (1 : ℚ))) false
          else compute_dpmi r ⟨1, 1, 1, 1, 1, 1, 1, 1⟩ 3 false)
    ∧ (∀ r : DRow, compute_dpmi r ⟨1, 1, 1, 1, 1, 1, 1, 1⟩ 3 false ≠ 0 →
        dpmiForSeasonRow r ⟨1, 1, 1, 1, 1, 1, 1, 1⟩ 3 false 1960
            (some (fun _ => (1 : ℚ))) =
          compute_dpmi r ⟨1, 1, 1, 1, 1, 1, 1, 1⟩ 3 false) :=
  dpmi_sentinel_impute_c10
    ⟨PyFloat.num 0, PyFloat.none, PyFloat.num 0, PyFloat.num 2,
      none, none, none, none, none, none⟩
    ⟨1, 1, 1, 1, 1, 1, 1, 1⟩ 3 false 1960 (some (fun _ => (1 : ℚ)))
    (Or.inr rfl) (Or.inl rfl) (Or.inr rfl)

theorem posNum_amended_witness :
    posNumV1 (some "ZZ") = 3 ∧ posNumImputer (some "QQ") = 3 := by
  obtain ⟨_, _, _, _, _, _, _, _, _, _, _, _, _, _, _, _, _, _, hV1, hIMP⟩ :=
    posNum_amended
  exact ⟨hV1 "ZZ" rfl, hIMP "QQ" rfl⟩

theorem pos_weight_monotone_witness :
    interp_dpmi_weights 0 .blk ≤ interp_dpmi_weights 1 .blk
    ∧ interp_dpmi_weights 0 .drb ≤ interp_dpmi_weights 1 .drb
    ∧ get_pos_weight_v2 .blk 1 ≤ get_pos_weight_v2 .blk 5
    ∧ get_pos_weight_v2 .drb 1 ≤ get_pos_weight_v2 .drb 5
    ∧ get_pos_weight_v2 .orb 1 ≤ get_pos_weight_v2 .orb 5
    ∧ get_pos_weight_v3 .drb 1 ≤ get_pos_weight_v3 .drb 5 :=
  pos_weight_monotone_amended 0 1 1 5 (by norm_num) (by norm_num) (by norm_num)
    (by norm_num)

theorem era_deflators_c6_witness :
    (get_era_deflators 2012).stl = 1 ∧ (get_era_deflators 2012).blk = 1
    ∧ (get_era_deflators 2012).trb = 1 :=
  (era_deflators_c6 2012).2.1 (by norm_num)
